import Mathlib

/-!
Verification development for the pact-api-testbed protocol engine: a shallow
embedding of the Stub Pathfinder Server (stub.js) and the Pathfinder
Validator orchestrator (validator.js), with theorems about the token
service, event handling, routing and the orchestrator sequence.

External library facilities of the Node runtime (base64 codecs, the
HMAC-SHA256 keyed hash, JSON serialization of token segments, URL parsing
and randomness) are passed in as explicit function parameters or as
pre-drawn values, so every definition stays executable and the theorems
quantify over those environments.
-/

/-- A JSON value as produced by JSON.parse: numbers are modelled as
rationals (exact for the decimal literals appearing in the source). -/
inductive Json where
  | null : Json
  | bool : Bool → Json
  | num : ℚ → Json
  | str : String → Json
  | arr : List Json → Json
  | obj : List (String × Json) → Json

/-- Lookup of a key in an object field list (first occurrence wins, as for
parsed JSON objects). -/
def assocGet : List (String × Json) → String → Option Json
  | [], _ => none
  | (k2, v) :: rest, k => if k2 = k then some v else assocGet rest k

/-- JavaScript property access x.k: a missing property, or access on a
non-object, yields undefined, which this model conflates with null. -/
def Json.get : Json → String → Json
  | .obj fields, k =>
    match assocGet fields k with
    | some v => v
    | none => .null
  | _, _ => .null

/-- The JavaScript test x == null (true for null and undefined). -/
def Json.isNull : Json → Bool
  | .null => true
  | _ => false

/-- The JavaScript test typeof x == "object" on a parsed JSON value
(objects and arrays; the null case is always screened off first in the
source). -/
def Json.isObjOrArr : Json → Bool
  | .obj _ => true
  | .arr _ => true
  | _ => false

/-- The field list of an object value; Object.keys iteration of the source
is only ever applied to object values. -/
def Json.fieldsOf : Json → List (String × Json)
  | .obj fs => fs
  | _ => []

/-- JavaScript loose comparison of a decoded value with a string literal,
restricted to the primitive cases exercised by the protocol. -/
def jsonEqStr : Json → String → Bool
  | .str t, s => t == s
  | _, _ => false

/-- The JavaScript test typeof x == "number". -/
def Json.isNum : Json → Bool
  | .num _ => true
  | _ => false

/-- Numeric value of a number; only read under an isNum guard. -/
def Json.asRat : Json → ℚ
  | .num q => q
  | _ => 0

/-- JavaScript x.length == 0 on a decoded value: arrays and strings have a
length, while for other values undefined == 0 is false. -/
def jsonLengthEqZero : Json → Bool
  | .arr xs => xs.isEmpty
  | .str s => s.isEmpty
  | _ => false

mutual

/-- Structural equality of JSON values, modelling JavaScript value
comparison on the primitive values the orchestrator compares. -/
def jsonBeq : Json → Json → Bool
  | .null, .null => true
  | .bool a, .bool b => a == b
  | .num a, .num b => a == b
  | .str a, .str b => a == b
  | .arr a, .arr b => jsonBeqL a b
  | .obj a, .obj b => jsonBeqF a b
  | _, _ => false

def jsonBeqL : List Json → List Json → Bool
  | [], [] => true
  | a :: as, b :: bs => jsonBeq a b && jsonBeqL as bs
  | _, _ => false

def jsonBeqF : List (String × Json) → List (String × Json) → Bool
  | [], [] => true
  | (k, v) :: as, (k2, v2) :: bs => k == k2 && jsonBeq v v2 && jsonBeqF as bs
  | _, _ => false

end

/-- JavaScript Array.prototype.includes on an array value. -/
def jsonIncludes (j : Json) (v : Json) : Bool :=
  match j with
  | .arr xs => xs.any (fun x => jsonBeq x v)
  | _ => false

/-- JavaScript Array.prototype.every on an array value. -/
def jsonEvery (j : Json) (p : Json → Bool) : Bool :=
  match j with
  | .arr xs => xs.all p
  | _ => false

/-- JavaScript string coercion as used when a decoded value is spliced into
a string; only the string case is exercised by well-formed traffic. -/
def Json.coerceString : Json → String
  | .str s => s
  | .num q => toString q.num
  | .bool b => if b then "true" else "false"
  | .null => "null"
  | .arr _ => ""
  | .obj _ => "[object Object]"

/-- JavaScript String.prototype.startsWith, over the character lists. -/
def strStartsWith (s p : String) : Bool := p.toList.isPrefixOf s.toList

/-- JavaScript String.prototype.substring(n), over the character lists. -/
def strDrop (s : String) (n : Nat) : String := String.mk (s.toList.drop n)

/-- JavaScript String.prototype.trim, over the character lists. -/
def strTrim (s : String) : String :=
  String.mk (((s.toList.dropWhile Char.isWhitespace).reverse.dropWhile
    Char.isWhitespace).reverse)

/-- JavaScript String.prototype.split with a one-character separator:
splits on every occurrence and never returns an empty list. -/
def splitChar (sep : Char) : List Char → List (List Char)
  | [] => [[]]
  | c :: cs =>
    if c = sep then [] :: splitChar sep cs
    else
      match splitChar sep cs with
      | [] => [[c]]
      | p :: ps => (c :: p) :: ps

theorem splitChar_ne_nil (sep : Char) (s : List Char) : splitChar sep s ≠ [] := by
  cases s with
  | nil => simp [splitChar]
  | cons c cs =>
    simp only [splitChar]
    split
    · simp
    · split <;> simp

theorem splitChar_no_sep (sep : Char) (s : List Char) (h : sep ∉ s) :
    splitChar sep s = [s] := by
  induction s with
  | nil => rfl
  | cons c cs ih =>
    simp only [List.mem_cons, not_or] at h
    have hc : ¬ (c = sep) := fun hcs => h.1 hcs.symm
    simp only [splitChar, if_neg hc, ih h.2]

theorem splitChar_append_sep (sep : Char) (a rest : List Char) (h : sep ∉ a) :
    splitChar sep (a ++ sep :: rest) = a :: splitChar sep rest := by
  induction a with
  | nil => simp [splitChar]
  | cons c cs ih =>
    simp only [List.mem_cons, not_or] at h
    have hc : ¬ (c = sep) := fun hcs => h.1 hcs.symm
    simp only [List.cons_append, splitChar, if_neg hc, List.append_eq, ih h.2]

/- ## Token Service (stub.js 514-553) -/

/-- The fixed shared signing secret (stub.js line 41). -/
def SECRET : String := "GrSRLR3p"

/-- The JWT header object built by generateJwtToken (stub.js 515-518). -/
def jwtHeader : Json := Json.obj [("typ", Json.str "JWT"), ("alg", Json.str "HS256")]

/-- The JWT claims object built by generateJwtToken at whole-second issue
time now: the issue time and a one-hour expiry (stub.js 519-523). -/
def jwtClaim (now : Int) : Json :=
  Json.obj [("iss", Json.num (now : ℚ)), ("exp", Json.num ((now + 60 * 60 : Int) : ℚ))]

/-- generateJwtToken (stub.js 514-526). The segment serializer enc stands
for base64 of JSON.stringify with trailing padding stripped, and hmac for
the base64 of the HMAC-SHA256 digest under the given key; both are passed
in as the Node library functions they call out to. -/
def generateJwtToken (hmac : String → List Char → List Char) (enc : Json → List Char)
    (now : Int) : List Char :=
  let token := enc jwtHeader ++ '.' :: enc (jwtClaim now)
  token ++ '.' :: hmac SECRET token

/-- verifyJwtToken (stub.js 531-553): split the token on dots, decode and
re-serialize the header and claims, and check the part count, the header
tag, the claim field types, the expiry against the current time now (in
seconds, possibly fractional), and the recomputed signature. The segment
decoder dec stands for JSON.parse of the base64 decoding; a decode failure
models a JSON.parse exception. -/
def verifyJwtToken (hmac : String → List Char → List Char) (enc : Json → List Char)
    (dec : List Char → Option Json) (now : ℚ) (token : List Char) : Except String Unit :=
  let elements := splitChar '.' token
  if elements.length ≠ 3 then .error "Invalid token"
  else
    match dec (elements.getD 0 []), dec (elements.getD 1 []) with
    | some header, some claim =>
      let certificate := elements.getD 2 []
      if !(jsonEqStr (header.get "typ") "JWT") || !(jsonEqStr (header.get "alg") "HS256") then
        .error "Invalid token"
      else if !(claim.get "iss").isNum || !(claim.get "exp").isNum then
        .error "Invalid token"
      else if (claim.get "exp").asRat < now then
        .error "Invalid token"
      else
        let token2 := enc header ++ '.' :: enc claim
        let certificate2 := hmac SECRET token2
        if certificate2 ≠ certificate then .error "Invalid token" else .ok ()
    | _, _ => .error "Unexpected token in JSON"

/- ## Stub Pathfinder Server data model (stub.js 16-69) -/

/-- The optional fixed footprint override supplied in settings. -/
structure StubFootprint where
  id : Option String
  companyIds : Option (List String)
  productIds : Option (List String)

/-- The destination endpoints the stub calls back into (stub.js 24-32);
the field name pathPrefex reproduces the source spelling. -/
structure DestinationServer where
  authContextPath : String
  authPath : String
  userName : String
  password : String
  dataContextPath : String
  pathPrefex : String

/-- The stub server settings (stub.js 16-22); the log setting does not
affect the modelled behaviour and is omitted. -/
structure StubSetting where
  contextPath : String
  destinationServer : DestinationServer
  data : Option StubFootprint

/-- The fresh generated values one generateFootprint call consumes: a new
random id, uuids for the company and product identifier urns, the current
timestamp and the two reference period bounds (stub.js 559-592). -/
structure FootprintGen where
  idUuid : String
  companyUuid : String
  productUuid : String
  created : String
  refStart : String
  refEnd : String

/-- The field list of the footprint document synthesized by
generateFootprint (stub.js 559-592): fixed override fields from the
settings data merged with generated defaults and fixed example values. -/
def generateFootprintFields (data : Option StubFootprint) (pfId : Option String)
    (gen : FootprintGen) : List (String × Json) :=
  [("id", Json.str (match pfId with
      | some p => p
      | none =>
        match data with
        | some d =>
          match d.id with
          | some i => i
          | none => gen.idUuid
        | none => gen.idUuid)),
   ("specVersion", Json.str "2.2.0"),
   ("version", Json.num 0),
   ("created", Json.str gen.created),
   ("status", Json.str "Active"),
   ("companyName", Json.str "Demo Company"),
   ("companyIds", match data with
      | some d =>
        match d.companyIds with
        | some ids => Json.arr (ids.map Json.str)
        | none => Json.arr [Json.str ("urn:uuid:" ++ gen.companyUuid)]
      | none => Json.arr [Json.str ("urn:uuid:" ++ gen.companyUuid)]),
   ("productDescription", Json.str "Demo Product"),
   ("productIds", match data with
      | some d =>
        match d.productIds with
        | some ids => Json.arr (ids.map Json.str)
        | none => Json.arr [Json.str ("urn:uuid:" ++ gen.productUuid)]
      | none => Json.arr [Json.str ("urn:uuid:" ++ gen.productUuid)]),
   ("productCategoryCpc", Json.str "49"),
   ("productNameCompany", Json.str "Demo Product"),
   ("comment", Json.str ""),
   ("pcf", Json.obj [
      ("declaredUnit", Json.str "kilogram"),
      ("unitaryProductAmount", Json.num 100),
      ("pCfExcludingBiogenic", Json.num 3.241),
      ("fossilGhgEmissions", Json.num 2.982),
      ("fossilCarbonContent", Json.num 0.813),
      ("biogenicCarbonContent", Json.num 0),
      ("characterizationFactors", Json.str "AR6"),
      ("ipccCharacterizationFactorsSources", Json.arr [Json.str "AR6"]),
      ("crossSectoralStandardsUsed", Json.arr [Json.str "GHG Protocol Product standard"]),
      ("boundaryProcessesDescription", Json.str ""),
      ("referencePeriodStart", Json.str gen.refStart),
      ("referencePeriodEnd", Json.str gen.refEnd),
      ("geographyCountry", Json.str "FR"),
      ("exemptedEmissionsPercent", Json.num 0),
      ("exemptedEmissionsDescription", Json.str ""),
      ("packagingEmissionsIncluded", Json.bool false)])]

/-- generateFootprint (stub.js 559-592). -/
def generateFootprint (data : Option StubFootprint) (pfId : Option String)
    (gen : FootprintGen) : Json :=
  Json.obj (generateFootprintFields data pfId gen)

/-- JavaScript property assignment target[key] = value on an object field
list: overwrite the existing binding in place, or append a fresh one. -/
def setAssoc : List (String × Json) → String → Json → List (String × Json)
  | [], k, v => [(k, v)]
  | (k2, v2) :: rest, k, v =>
    if k2 = k then (k, v) :: rest else (k2, v2) :: setAssoc rest k v

/-- Object.keys(fragment).forEach(key => footprint[key] = fragment[key])
(stub.js 256-258), applied to the footprint field list. -/
def mergeFields (fs : List (String × Json)) : List (String × Json) → List (String × Json)
  | [] => fs
  | (k, v) :: rest => mergeFields (setAssoc fs k v) rest

/- ## Stub server event types and responses -/

def publishedType : String := "org.wbcsd.pathfinder.ProductFootprint.Published.v1"
def createdType : String := "org.wbcsd.pathfinder.ProductFootprintRequest.Created.v1"
def fulfilledType : String := "org.wbcsd.pathfinder.ProductFootprintRequest.Fulfilled.v1"
def rejectedType : String := "org.wbcsd.pathfinder.ProductFootprintRequest.Rejected.v1"

/-- A response the stub received from a destination endpoint it called,
with the body already decoded where applicable. -/
structure HttpResp where
  status : Nat
  body : Json

/-- Body shapes the stub server writes. -/
inductive RespBody where
  | text : String → RespBody
  | jsonBody : Json → RespBody
  | jsonError : String → String → RespBody

/-- One HTTP response written by the stub server: status, content type
header (absent for the bare success path) and body. -/
structure HttpResponseOut where
  status : Nat
  contentType : Option String
  body : RespBody

/-- handleSuccess (stub.js 342-347). -/
def successResponse : HttpResponseOut := ⟨200, none, .text "OK"⟩

/-- handleJson (stub.js 353-362). -/
def jsonResponse (j : Json) : HttpResponseOut := ⟨200, some "application/json", .jsonBody j⟩

/-- handleNotFoundError (stub.js 387-396). -/
def notFoundResponse : HttpResponseOut := ⟨404, some "text/plain", .text "Not Found"⟩

/-- handleBadRequestError (stub.js 402-416). -/
def badRequestResponse (msg : String) : HttpResponseOut :=
  ⟨400, some "application/json", .jsonError "BadRequest" msg⟩

/-- handleForbiddenError (stub.js 422-436). -/
def forbiddenResponse (msg : String) : HttpResponseOut :=
  ⟨403, some "application/json", .jsonError "AccessDenied" msg⟩

/-- handleUnauthorizedError (stub.js 442-451): a 401 whose body is the bare
message as plain text, unlike the json error shapes above. -/
def unauthorizedResponse (msg : String) : HttpResponseOut :=
  ⟨401, some "text/plain", .text msg⟩

/-- One outbound HTTP request the stub issues. -/
structure OutboundCall where
  method : String
  url : String
  host : String
  accept : Option String
  contentType : String
  authorization : String
  body : Json

/-- Externally visible steps of one request handling, in order: responses
written to the caller and outbound calls issued. -/
inductive StubAction where
  | respond : HttpResponseOut → StubAction
  | call : OutboundCall → StubAction

/-- Events the server emits to its subscribers. -/
inductive StubEmit where
  | dataEvent : Json → StubEmit
  | errorEvent : String → StubEmit

/-- One inbound HTTP request to the stub server. -/
structure StubRequest where
  url : Option String
  authorization : Option String
  contentType : Option String
  body : Option Json

/- ## Stub server handlers (stub.js 126-337) -/

/-- handleAuthenticate (stub.js 126-142): b64dec stands for base64
decoding to utf8 via Buffer. On success, any syntactically valid Basic
pair is answered with a fresh token. -/
def handleAuthenticate (b64dec : String → String)
    (hmac : String → List Char → List Char) (enc : Json → List Char)
    (nowSec : Int) (authorization : Option String) : Except String Json :=
  match authorization with
  | none => .error "The authorization header of the request is empty."
  | some auth =>
    if !strStartsWith auth "Basic " then
      .error ("The authorization header of the request is invalid. " ++ auth)
    else
      let trimmed := strTrim (strDrop auth "Basic ".length)
      let credentials := splitChar ':' (b64dec trimmed).toList
      if credentials.length ≠ 2 then
        .error ("The authorization header of the request is invalid. " ++ trimmed)
      else
        .ok (Json.obj [("token_type", Json.str "Bearer"),
          ("access_token", Json.str (String.mk (generateJwtToken hmac enc nowSec)))])

/-- handleAuthorization (stub.js 147-157). -/
def handleAuthorization (hmac : String → List Char → List Char) (enc : Json → List Char)
    (dec : List Char → Option Json) (now : ℚ)
    (authorization : Option String) : Except String Unit :=
  match authorization with
  | none => .error "The authorization header of the request is empty."
  | some auth =>
    if !strStartsWith auth "Bearer " then
      .error ("The authorization header of the request is invalid. " ++ auth)
    else
      verifyJwtToken hmac enc dec now (strTrim (strDrop auth "Bearer ".length)).toList

def isHexDigit (c : Char) : Bool :=
  (('0' ≤ c) && (c ≤ '9')) || (('a' ≤ c) && (c ≤ 'f')) || (('A' ≤ c) && (c ≤ 'F'))

/-- The 8-4-4-4-12 hexadecimal shape of the uuid part of the route regex
(stub.js 165). -/
def uuidShape (s : List Char) : Bool :=
  match splitChar '-' s with
  | [a, b, c, d, e] =>
    a.length == 8 && b.length == 4 && c.length == 4 && d.length == 4 && e.length == 12 &&
    a.all isHexDigit && b.all isHexDigit && c.all isHexDigit && d.all isHexDigit &&
    e.all isHexDigit
  | _ => false

/-- The route regex of stub.js 165: at least one character, a slash, then a
uuid-shaped final segment at the end of the url. -/
def matchesUuidPath (url : String) : Bool :=
  let parts := splitChar '/' url.toList
  let lastPart := parts.getLastD []
  decide (2 ≤ parts.length) && uuidShape lastPart &&
    decide (lastPart.length + 2 ≤ url.toList.length)

/-- handleProductFootprints (stub.js 163-173): a uuid-shaped trailing path
segment selects the single-footprint response carrying that id; any other
url under the footprints route yields the one-element list response. -/
def handleProductFootprints (setting : StubSetting) (gen : FootprintGen)
    (url : String) : Json :=
  if matchesUuidPath url then
    let pfId := String.mk ((splitChar '/' url.toList).getLastD [])
    Json.obj [("data", generateFootprint setting.data (some pfId) gen)]
  else
    Json.obj [("data", Json.arr [generateFootprint setting.data none gen])]

/-- The RequestCreated branch of handleEvents (stub.js 212-283): respond
200 first, then authenticate against the destination, then post the
fulfilled event carrying the merged footprint. The outbound responses are
supplied by the environment as authResp and eventsResp; freshEventId is
the freshly drawn uuid of the outgoing event, and the interpolated status
and body of the final error message are abbreviated. -/
def handleRequestCreated (setting : StubSetting) (gen : FootprintGen)
    (freshEventId : String) (b64enc : String → String) (host : String)
    (body : Json) (authResp eventsResp : HttpResp) :
    List StubAction × Except String Json :=
  let eventId := body.get "id"
  let data := body.get "data"
  if eventId.isNull then ([], .error "The request body does not contain the id.")
  else if data.isNull then ([], .error "The request body does not contain the data.")
  else
    let fragment := data.get "pf"
    if fragment.isNull then ([], .error "The request body does not contain the data.pf.")
    else
      let d := setting.destinationServer
      let authCall : OutboundCall :=
        { method := "post", url := d.authContextPath ++ d.authPath, host := host,
          accept := some "application/json",
          contentType := "application/x-www-form-urlencoded",
          authorization := "Basic " ++ b64enc (d.userName ++ ":" ++ d.password),
          body := Json.obj [("grant_type", Json.str "client_credentials")] }
      let acts := [StubAction.respond successResponse, StubAction.call authCall]
      let accessToken :=
        if authResp.status = 200 then authResp.body.get "access_token" else Json.null
      if accessToken.isNull then (acts, .error "Authentication error")
      else
        let footprint := Json.obj
          (mergeFields (generateFootprintFields setting.data none gen) fragment.fieldsOf)
        let envelope := Json.obj [
          ("type", Json.str fulfilledType),
          ("specversion", Json.str "1.0"),
          ("id", Json.str freshEventId),
          ("source", Json.str (setting.contextPath ++ "/2/events")),
          ("data", Json.obj [("requestEventId", eventId), ("pfs", Json.arr [footprint])])]
        let eventsCall : OutboundCall :=
          { method := "post", url := d.dataContextPath ++ d.pathPrefex ++ "/events",
            host := host, accept := none,
            contentType := "application/cloudevents+json; charset=UTF-8",
            authorization := "Bearer " ++ accessToken.coerceString,
            body := envelope }
        let acts2 := acts ++ [StubAction.call eventsCall]
        if eventsResp.status ≠ 200 then
          (acts2, .error "An error was returned in response to a request to send footprints.")
        else (acts2, .ok body)

/-- The recognized rejection error codes (stub.js 325-331). -/
def errCodeRecognized (err : Json) : Bool :=
  jsonEqStr (err.get "code") "AccessDenied" ||
  jsonEqStr (err.get "code") "BadRequest" ||
  jsonEqStr (err.get "code") "NoSuchFootprint" ||
  jsonEqStr (err.get "code") "NotImplemented" ||
  jsonEqStr (err.get "code") "TokenExpired" ||
  jsonEqStr (err.get "code") "InternalError"

/-- handleEvents (stub.js 180-337): envelope validation, then dispatch on
the event type. The returned action list records, in order, the responses
written and the outbound calls made; the Except carries the parsed request
body that the caller emits as a data event on success. -/
def handleEvents (setting : StubSetting) (gen : FootprintGen) (freshEventId : String)
    (b64enc : String → String) (host : String)
    (contentType : Option String) (requestBody : Option Json)
    (authResp eventsResp : HttpResp) : List StubAction × Except String Json :=
  match requestBody with
  | none => ([], .error "Invalid request.")
  | some body =>
    if !body.isObjOrArr then ([], .error "Invalid request.")
    else
      match contentType with
      | none => ([], .error "Invalid request.")
      | some ct =>
        if !strStartsWith ct "application/cloudevents+json" then
          ([], .error "The Content-Type of the request is invalid.")
        else if (body.get "type").isNull then
          ([], .error "The type of the request is invalid.")
        else if !(jsonEqStr (body.get "type") publishedType) &&
            !(jsonEqStr (body.get "type") createdType) &&
            !(jsonEqStr (body.get "type") fulfilledType) &&
            !(jsonEqStr (body.get "type") rejectedType) then
          ([], .error "The value of the type property is invalid.")
        else if (body.get "id").isNull then
          ([], .error "The id of the request is invalid.")
        else if (body.get "source").isNull then
          ([], .error "The source of the request is invalid.")
        else if jsonEqStr (body.get "type") publishedType then
          ([StubAction.respond successResponse], .ok body)
        else if jsonEqStr (body.get "type") createdType then
          handleRequestCreated setting gen freshEventId b64enc host body authResp eventsResp
        else if jsonEqStr (body.get "type") fulfilledType then
          let data := body.get "data"
          if data.isNull then ([], .error "The request body does not contain the data.")
          else if (data.get "requestEventId").isNull then
            ([], .error "The request body does not contain the data.requestEventId.")
          else if (data.get "pfs").isNull then
            ([], .error "The request body does not contain the data.pfs.")
          else if jsonLengthEqZero (data.get "pfs") then
            ([], .error "The data.pfs in the request is empty.")
          else ([StubAction.respond successResponse], .ok body)
        else
          let data := body.get "data"
          if data.isNull then ([], .error "The request body does not contain the data.")
          else if (data.get "requestEventId").isNull then
            ([], .error "The request body does not contain the data.requestEventId.")
          else
            let err := data.get "error"
            if err.isNull then ([], .error "The request body does not contain the data.error.")
            else if (err.get "code").isNull || (err.get "message").isNull then
              ([], .error "The data.error is invalid.")
            else if !errCodeRecognized err then
              ([], .error "The data.error is invalid.")
            else ([StubAction.respond successResponse], .ok body)

/-- True when one of the recorded actions already wrote a response to the
caller. -/
def hasRespond (acts : List StubAction) : Bool :=
  acts.any (fun a => match a with
    | .respond _ => true
    | .call _ => false)

/-- The request dispatcher of the stub server (stub.js 71-114): the auth
and events routes are matched exactly, the footprints route by prefix, and
anything else is answered 404 plain text. The second component lists the
events emitted to subscribers. When handleEvents fails, the catch of
stub.js 106-109 writes the 400 BadRequest response and then emits the
error event — but only when no response has been written yet: if the 200
acknowledgment already went out (the RequestCreated outbound failures),
the writeHead inside handleBadRequestError throws because the headers were
already sent, so neither the 400 response nor the error emission of
stub.js 108 happens. -/
def stubHandleRequest (setting : StubSetting) (gen : FootprintGen) (freshEventId : String)
    (b64enc b64dec : String → String)
    (hmac : String → List Char → List Char) (enc : Json → List Char)
    (dec : List Char → Option Json) (now : ℚ) (host : String)
    (authResp eventsResp : HttpResp) (req : StubRequest) :
    List StubAction × List StubEmit :=
  match req.url with
  | none => ([StubAction.respond notFoundResponse], [])
  | some url =>
    if url = "/auth/token" then
      match handleAuthenticate b64dec hmac enc ⌊now⌋ req.authorization with
      | .ok responseBody => ([StubAction.respond (jsonResponse responseBody)], [])
      | .error msg =>
        ([StubAction.respond (unauthorizedResponse msg)], [StubEmit.errorEvent msg])
    else if strStartsWith url "/2/footprints" then
      match handleAuthorization hmac enc dec now req.authorization with
      | .error msg =>
        ([StubAction.respond (forbiddenResponse msg)], [StubEmit.errorEvent msg])
      | .ok _ =>
        ([StubAction.respond (jsonResponse (handleProductFootprints setting gen url))], [])
    else if url = "/2/events" then
      match handleAuthorization hmac enc dec now req.authorization with
      | .error msg =>
        ([StubAction.respond (forbiddenResponse msg)], [StubEmit.errorEvent msg])
      | .ok _ =>
        match handleEvents setting gen freshEventId b64enc host
            req.contentType req.body authResp eventsResp with
        | (acts, .ok body) => (acts, [StubEmit.dataEvent body])
        | (acts, .error msg) =>
          if hasRespond acts then (acts, [])
          else
            (acts ++ [StubAction.respond (badRequestResponse msg)],
             [StubEmit.errorEvent msg])
    else ([StubAction.respond notFoundResponse], [])

/- ## Test Orchestrator (validator.js 39-498) -/

/-- The alphabet of randomString (validator.js 492). -/
def randomAlphabet : String :=
  "abcdefghijklmnopqrstuvwxyzABCDEFGHIJKLMNOPQRSTUVWXYZ0123456789"

/-- randomString (validator.js 491-498): picks length characters from the
62-character alphanumeric alphabet; pick supplies the random draws. -/
def randomString (pick : Nat → Nat) (length : Nat) : String :=
  String.mk ((List.range length).map fun i =>
    randomAlphabet.toList.getD (pick i % randomAlphabet.length) 'a')

/-- The createdVariation reduce (validator.js 182-187): distinct created
values in first-seen order. -/
def createdVariation (footprints : List Json) : List Json :=
  footprints.foldl (fun result record =>
    if result.any (fun c => jsonBeq c (record.get "created")) then result
    else result ++ [record.get "created"]) []

/-- The productIdsVariation reduce (validator.js 188-193): a record is
skipped exactly when some already recorded entry has every one of its own
product identifiers contained in the record's productIds; findIndex(p)
being -1 is modelled as the negation of any. -/
def productIdsVariation (footprints : List Json) : List Json :=
  footprints.foldl (fun result record =>
    if result.any (fun entry => jsonEvery entry (fun productId =>
        jsonIncludes (record.get "productIds") productId)) then result
    else result ++ [record.get "productIds"]) []

/-- The orchestrator settings (validator.js 17-31); the log fields do not
affect the modelled behaviour and are omitted. Nullable inputs are
Options, mirroring the null checks of validator.js 53-85. -/
structure VSetting where
  version : Option String
  authContextPath : Option String
  userName : Option String
  password : Option String
  dataContextPath : Option String
  filterSupport : Option Bool
  limitSupport : Option Bool
  eventsSupport : Option Bool
  stubContextPath : Option String

/-- The responses the remote system returns to the orchestrator's four
preparatory requests, in sequence order. -/
structure VEnv where
  discovery : HttpResp
  negAuth : HttpResp
  posAuth : HttpResp
  footprints : HttpResp

/-- One outbound request the orchestrator issues during steps 1-4 (the
assembled test cases are executed by the external assertion engine and are
not requests of the orchestrator itself). -/
inductive VReq where
  | discoveryGet : String → VReq
  | authPost : String → String → String → VReq
  | footprintsGet : String → VReq
  deriving DecidableEq

/-- How one validate run ends: a thrown error, an NG conformance failure
that stops the run, or the assembled state handed to the assertion engine
(path prefix, the two derived variations when computed, and whether the
stub server is started). -/
inductive VOutcome where
  | thrown : String → VOutcome
  | ngIncorrectCredentials : VOutcome
  | ngAuthenticationFailed : Nat → VOutcome
  | ngAccessTokenEmpty : VOutcome
  | ngFootprintsFailed : Nat → VOutcome
  | ngDataEmpty : VOutcome
  | ngSingleRecord : VOutcome
  | ngCreatedVariation : VOutcome
  | ngProductIdsVariation : VOutcome
  | assembled : String → Option (List Json) → Option (List Json) → Bool → VOutcome

/-- The token endpoint resolution (validator.js 99-106): OpenID Connect
discovery overrides the default authContextPath + /auth/token when it
returns a usable token_endpoint. -/
def resolvedAuthUrl (authContextPath0 : String) (env : VEnv) : String :=
  if env.discovery.status = 200 ∧ env.discovery.body.isNull = false ∧
      (env.discovery.body.get "token_endpoint").isNull = false then
    (env.discovery.body.get "token_endpoint").coerceString
  else authContextPath0 ++ "/auth/token"

/-- The footprint listing and derivation stage (validator.js 154-201) and
the crash sites just past it, reached once authentication has succeeded
and the path prefix is known. A non-array non-null data value crashes the
reduce in the source. With exactly one record and neither capability flag
set, the source passes the explicit single-record check but then builds
the test-case list eagerly, and the filter template reading
createdVariation[0] (validator.js 238) throws a TypeError because
createdVariation was never assigned — the run aborts before anything is
handed to the assertion engine; both crashes are modelled as thrown
outcomes. -/
def validateFootprintsStage (dataContextPath pathPrefex : String)
    (filterSupport limitSupport eventsSupport : Bool) (env : VEnv)
    (reqs : List VReq) : VOutcome × List VReq :=
  let footprintsUrl := dataContextPath ++ pathPrefex ++ "/footprints"
  let reqs3 := reqs ++ [VReq.footprintsGet footprintsUrl]
  if env.footprints.status ≠ 200 ∧ env.footprints.status ≠ 202 then
    (.ngFootprintsFailed env.footprints.status, reqs3)
  else if env.footprints.body.isNull then (.ngDataEmpty, reqs3)
  else
    match env.footprints.body.get "data" with
    | Json.null => (.ngDataEmpty, reqs3)
    | Json.arr footprints =>
      if footprints.length = 0 then (.ngDataEmpty, reqs3)
      else if footprints.length = 1 then
        if filterSupport || limitSupport then (.ngSingleRecord, reqs3)
        else (.thrown "TypeError: Cannot read properties of undefined", reqs3)
      else
        let createdVar := createdVariation footprints
        let productIdsVar := productIdsVariation footprints
        if filterSupport && decide (createdVar.length ≤ 1) then
          (.ngCreatedVariation, reqs3)
        else if filterSupport && decide (productIdsVar.length ≤ 1) then
          (.ngProductIdsVariation, reqs3)
        else (.assembled pathPrefex (some createdVar) (some productIdsVar) eventsSupport, reqs3)
    | _ => (.thrown "TypeError: footprints.reduce is not a function", reqs3)

/-- PathfinderValidator.validate (validator.js 39-485): the sequential
orchestrator run up to the hand-off to the external assertion engine.
The random username and password draws of the negative check are supplied
by pickUser and pickPass; the returned list records every outbound request
issued, in order. -/
def validate (setting : VSetting) (env : VEnv) (pickUser pickPass : Nat → Nat) :
    VOutcome × List VReq :=
  match setting.version with
  | none => (.thrown "The specVersion is not specified.", [])
  | some specVersion =>
  match setting.authContextPath with
  | none => (.thrown "The authContextPath is not specified.", [])
  | some authContextPath0 =>
  match setting.userName with
  | none => (.thrown "The userName is not specified.", [])
  | some userName =>
  match setting.password with
  | none => (.thrown "The password is not specified.", [])
  | some password =>
  match setting.dataContextPath with
  | none => (.thrown "The dataContextPath is not specified.", [])
  | some dataContextPath =>
  let filterSupport := setting.filterSupport.getD false
  let limitSupport := setting.limitSupport.getD false
  let eventsSupport := setting.eventsSupport.getD false
  let discoveryUrl := authContextPath0 ++ "/.well-known/openid-configuration"
  let authUrl := resolvedAuthUrl authContextPath0 env
  let incorrectUserName := randomString pickUser 16
  let incorrectPassword := randomString pickPass 16
  let reqs1 := [VReq.discoveryGet discoveryUrl,
    VReq.authPost authUrl incorrectUserName incorrectPassword]
  if env.negAuth.status = 200 then (.ngIncorrectCredentials, reqs1)
  else
    let reqs2 := reqs1 ++ [VReq.authPost authUrl userName password]
    if env.posAuth.status ≠ 200 then (.ngAuthenticationFailed env.posAuth.status, reqs2)
    else if (env.posAuth.body.get "access_token").isNull then (.ngAccessTokenEmpty, reqs2)
    else if strStartsWith specVersion "1" then
      validateFootprintsStage dataContextPath "/0" filterSupport limitSupport
        eventsSupport env reqs2
    else if strStartsWith specVersion "2" then
      validateFootprintsStage dataContextPath "/2" filterSupport limitSupport
        eventsSupport env reqs2
    else (.thrown "Invalid specVersion.", reqs2)

/- ## Witness instantiations of the external codec parameters -/

/-- A concrete stand-in for the keyed hash in witness instantiations:
prefixes the key and flattens dots, so its output never contains the
token separator. -/
def hmacW (key : String) (msg : List Char) : List Char :=
  key.toList ++ '#' :: msg.map (fun c => if c = '.' then '|' else c)

/-- A concrete stand-in for the segment serializer in witness
instantiations: separator-free and injective on the token payloads the
witnesses use. -/
def encW : Json → List Char
  | Json.obj [("typ", Json.str a), ("alg", Json.str b)] => 'H' :: (a.toList ++ ';' :: b.toList)
  | Json.obj [("iss", Json.num i), ("exp", Json.num e)] =>
    'C' :: ((toString i.num).toList ++ ';' :: (toString e.num).toList)
  | _ => ['?']

/-- The partial inverse of encW on the payloads the witnesses use. -/
def decW (s : List Char) : Option Json :=
  if s = encW jwtHeader then some jwtHeader
  else if s = encW (jwtClaim 0) then some (jwtClaim 0)
  else none

/- ## C4: issue and verify round trip -/

/-- C4: for every issue time t, a token issued by generateJwtToken is a
three-part token whose middle segment encodes the issue time and a
one-hour expiry and whose final segment is the keyed hash under the fixed
shared secret over the header and claims segments; verifyJwtToken accepts
it at any current time strictly before the encoded expiry t + 3600 and
rejects it at any current time past that expiry. The hypotheses state that
the segment codec round-trips on the two token payloads and that the
serializer and hash outputs do not contain the dot separator, which holds
of the base64 alphabet the source uses. -/
theorem jwt_issue_verify_roundtrip
    (hmac : String → List Char → List Char) (enc : Json → List Char)
    (dec : List Char → Option Json) (t : Int) (now : ℚ)
    (hH : dec (enc jwtHeader) = some jwtHeader)
    (hC : dec (enc (jwtClaim t)) = some (jwtClaim t))
    (h1 : '.' ∉ enc jwtHeader) (h2 : '.' ∉ enc (jwtClaim t))
    (h3 : '.' ∉ hmac SECRET (enc jwtHeader ++ '.' :: enc (jwtClaim t))) :
    splitChar '.' (generateJwtToken hmac enc t)
      = [enc jwtHeader, enc (jwtClaim t),
         hmac SECRET (enc jwtHeader ++ '.' :: enc (jwtClaim t))]
    ∧ dec ((splitChar '.' (generateJwtToken hmac enc t)).getD 1 []) = some (jwtClaim t)
    ∧ (now < (t : ℚ) + 60 * 60 →
        verifyJwtToken hmac enc dec now (generateJwtToken hmac enc t) = .ok ())
    ∧ ((t : ℚ) + 60 * 60 < now →
        verifyJwtToken hmac enc dec now (generateJwtToken hmac enc t)
          = .error "Invalid token") := by
  have hsplit : splitChar '.' (generateJwtToken hmac enc t)
      = [enc jwtHeader, enc (jwtClaim t),
         hmac SECRET (enc jwtHeader ++ '.' :: enc (jwtClaim t))] := by
    show splitChar '.' ((enc jwtHeader ++ '.' :: enc (jwtClaim t)) ++ '.' ::
        hmac SECRET (enc jwtHeader ++ '.' :: enc (jwtClaim t))) = _
    rw [List.append_assoc, List.cons_append,
      splitChar_append_sep '.' _ _ h1, splitChar_append_sep '.' _ _ h2,
      splitChar_no_sep '.' _ h3]
  have hhdr : (!(jsonEqStr (jwtHeader.get "typ") "JWT") ||
      !(jsonEqStr (jwtHeader.get "alg") "HS256")) = false := by decide
  have hnum : (!(Json.isNum ((jwtClaim t).get "iss")) ||
      !(Json.isNum ((jwtClaim t).get "exp"))) = false := by
    simp [jwtClaim, Json.get, assocGet, Json.isNum]
  have hexp : ((jwtClaim t).get "exp").asRat = ((t + 60 * 60 : Int) : ℚ) := by
    simp [jwtClaim, Json.get, assocGet, Json.asRat]
  have hverify : verifyJwtToken hmac enc dec now (generateJwtToken hmac enc t)
      = (if ((t + 60 * 60 : Int) : ℚ) < now then .error "Invalid token" else .ok ()) := by
    simp only [verifyJwtToken, hsplit]
    rw [if_neg (by simp)]
    simp only [List.getD_cons_zero, List.getD_cons_succ]
    rw [hH, hC]
    simp only [hhdr, hnum, hexp, Bool.false_eq_true, if_false]
    split
    · rfl
    · rw [if_neg (by simp)]
  refine ⟨hsplit, ?_, ?_, ?_⟩
  · rw [hsplit]; exact hC
  · intro hnow
    rw [hverify, if_neg ?_]
    push_cast
    linarith
  · intro hnow
    rw [hverify, if_pos ?_]
    push_cast
    linarith

/-- Witness for C4: a concrete token issued at second 0 verifies at second
5 and is rejected at second 7201, under the concrete witness codec. -/
theorem jwt_issue_verify_roundtrip_witness :
    verifyJwtToken hmacW encW decW 5 (generateJwtToken hmacW encW 0) = .ok ()
    ∧ verifyJwtToken hmacW encW decW 7201 (generateJwtToken hmacW encW 0)
        = .error "Invalid token" := by
  have h1 := jwt_issue_verify_roundtrip hmacW encW decW 0 5
    (by rfl) (by rfl) (by decide) (by decide) (by decide)
  have h2 := jwt_issue_verify_roundtrip hmacW encW decW 0 7201
    (by rfl) (by rfl) (by decide) (by decide) (by decide)
  exact ⟨h1.2.2.1 (by norm_num), h2.2.2.2 (by norm_num)⟩

/- ## C5: verify rejections -/

/-- C5: verifyJwtToken fails for every token whose dot split does not have
exactly three parts; for every three-part token whose decoded header does
not carry the JWT/HS256 tags; for every three-part token whose decoded
claims have a non-number iss or exp; and for every three-part token whose
signature segment differs from the keyed hash recomputed over the
re-serialized header and claims segments. -/
theorem verifyJwtToken_rejections
    (hmac : String → List Char → List Char) (enc : Json → List Char)
    (dec : List Char → Option Json) (now : ℚ) (token : List Char)
    (p0 p1 p2 : List Char) :
    ((splitChar '.' token).length ≠ 3 →
      ∃ msg, verifyJwtToken hmac enc dec now token = .error msg)
    ∧ (splitChar '.' token = [p0, p1, p2] →
        ((∀ h0, dec p0 = some h0 →
            (jsonEqStr (h0.get "typ") "JWT" = false ∨
              jsonEqStr (h0.get "alg") "HS256" = false) →
            ∃ msg, verifyJwtToken hmac enc dec now token = .error msg)
        ∧ (∀ c0, dec p1 = some c0 →
            ((c0.get "iss").isNum = false ∨ (c0.get "exp").isNum = false) →
            ∃ msg, verifyJwtToken hmac enc dec now token = .error msg)
        ∧ (∀ h0 c0, dec p0 = some h0 → dec p1 = some c0 →
            p2 ≠ hmac SECRET (enc h0 ++ '.' :: enc c0) →
            ∃ msg, verifyJwtToken hmac enc dec now token = .error msg))) := by
  constructor
  · intro hlen
    exact ⟨"Invalid token", by simp only [verifyJwtToken]; rw [if_pos hlen]⟩
  · intro hsplit
    refine ⟨?_, ?_, ?_⟩
    · intro h0 hdec0 htag
      cases hdec1 : dec p1 with
      | none =>
        refine ⟨"Unexpected token in JSON", ?_⟩
        simp only [verifyJwtToken, hsplit]
        rw [if_neg (by simp)]
        simp only [List.getD_cons_zero, List.getD_cons_succ]
        rw [hdec0, hdec1]
      | some c0 =>
        refine ⟨"Invalid token", ?_⟩
        simp only [verifyJwtToken, hsplit]
        rw [if_neg (by simp)]
        simp only [List.getD_cons_zero, List.getD_cons_succ]
        rw [hdec0, hdec1]
        have hb : (!(jsonEqStr (h0.get "typ") "JWT") ||
            !(jsonEqStr (h0.get "alg") "HS256")) = true := by
          rcases htag with h | h <;> simp [h]
        simp [hb]
    · intro c0 hdec1 hnum
      cases hdec0 : dec p0 with
      | none =>
        refine ⟨"Unexpected token in JSON", ?_⟩
        simp only [verifyJwtToken, hsplit]
        rw [if_neg (by simp)]
        simp only [List.getD_cons_zero, List.getD_cons_succ]
        rw [hdec0, hdec1]
      | some h0 =>
        refine ⟨"Invalid token", ?_⟩
        simp only [verifyJwtToken, hsplit]
        rw [if_neg (by simp)]
        simp only [List.getD_cons_zero, List.getD_cons_succ]
        rw [hdec0, hdec1]
        by_cases hb : (!(jsonEqStr (h0.get "typ") "JWT") ||
            !(jsonEqStr (h0.get "alg") "HS256")) = true
        · simp [hb]
        · have hb2 : (!(jsonEqStr (h0.get "typ") "JWT") ||
              !(jsonEqStr (h0.get "alg") "HS256")) = false := by
            simpa using hb
          have hn : (!(Json.isNum (c0.get "iss")) || !(Json.isNum (c0.get "exp"))) = true := by
            rcases hnum with h | h <;> simp [h]
          simp [hb2, hn]
    · intro h0 c0 hdec0 hdec1 hsig
      refine ⟨"Invalid token", ?_⟩
      simp only [verifyJwtToken, hsplit]
      rw [if_neg (by simp)]
      simp only [List.getD_cons_zero, List.getD_cons_succ]
      rw [hdec0, hdec1]
      by_cases hb : (!(jsonEqStr (h0.get "typ") "JWT") ||
          !(jsonEqStr (h0.get "alg") "HS256")) = true
      · simp [hb]
      · have hb2 : (!(jsonEqStr (h0.get "typ") "JWT") ||
            !(jsonEqStr (h0.get "alg") "HS256")) = false := by simpa using hb
        by_cases hn : (!(Json.isNum (c0.get "iss")) || !(Json.isNum (c0.get "exp"))) = true
        · simp [hb2, hn]
        · have hn2 : (!(Json.isNum (c0.get "iss")) || !(Json.isNum (c0.get "exp"))) = false := by
            simpa using hn
          by_cases he : (c0.get "exp").asRat < now
          · simp [hb2, hn2, he]
          · simp only [hb2, hn2, Bool.false_eq_true, if_false, if_neg he]
            rw [if_pos (Ne.symm hsig)]

/-- Witness for C5: concrete rejected tokens for each failure mode — a
one-part token, a token whose header segment decodes to an object without
the JWT tag, a token whose claims segment decodes to an object with
non-number iss and exp, and a well-formed token with a tampered signature
segment. -/
theorem verifyJwtToken_rejections_witness :
    (splitChar '.' "ab".toList).length ≠ 3
    ∧ (∃ msg, verifyJwtToken hmacW encW decW 0 "ab".toList = .error msg)
    ∧ (∃ msg, verifyJwtToken hmacW encW decW 0
        (encW (jwtClaim 0) ++ '.' :: encW (jwtClaim 0) ++ '.' :: ['s']) = .error msg)
    ∧ (∃ msg, verifyJwtToken hmacW encW decW 0
        (encW jwtHeader ++ '.' :: encW jwtHeader ++ '.' :: ['s']) = .error msg)
    ∧ (∃ msg, verifyJwtToken hmacW encW decW 0
        (generateJwtToken hmacW encW 0 ++ ['X']) = .error msg) := by
  refine ⟨by decide, ?_, ?_, ?_, ?_⟩
  · exact (verifyJwtToken_rejections hmacW encW decW 0 "ab".toList [] [] []).1 (by decide)
  · exact ((verifyJwtToken_rejections hmacW encW decW 0
        (encW (jwtClaim 0) ++ '.' :: encW (jwtClaim 0) ++ '.' :: ['s'])
        (encW (jwtClaim 0)) (encW (jwtClaim 0)) ['s']).2 (by decide)).1
      (jwtClaim 0) (by rfl) (Or.inl (by decide))
  · exact (((verifyJwtToken_rejections hmacW encW decW 0
        (encW jwtHeader ++ '.' :: encW jwtHeader ++ '.' :: ['s'])
        (encW jwtHeader) (encW jwtHeader) ['s']).2 (by decide)).2.1
      jwtHeader (by rfl) (Or.inl (by decide)))
  · exact (((verifyJwtToken_rejections hmacW encW decW 0
        (generateJwtToken hmacW encW 0 ++ ['X'])
        (encW jwtHeader) (encW (jwtClaim 0))
        (hmacW SECRET (encW jwtHeader ++ '.' :: encW (jwtClaim 0)) ++ ['X'])).2
        (by decide)).2.2
      jwtHeader (jwtClaim 0) (by rfl) (by rfl) (by decide))

/- ## Merge lemmas for the footprint synthesis -/

theorem setAssoc_get_self (fs : List (String × Json)) (k : String) (v : Json) :
    assocGet (setAssoc fs k v) k = some v := by
  induction fs with
  | nil => simp [setAssoc, assocGet]
  | cons hd rest ih =>
    obtain ⟨k2, v2⟩ := hd
    by_cases h : k2 = k
    · simp [setAssoc, h, assocGet]
    · simp [setAssoc, h, assocGet, ih]

theorem setAssoc_get_ne (fs : List (String × Json)) (k k3 : String) (v : Json)
    (h : k3 ≠ k) : assocGet (setAssoc fs k v) k3 = assocGet fs k3 := by
  induction fs with
  | nil => simp [setAssoc, assocGet, Ne.symm h]
  | cons hd rest ih =>
    obtain ⟨k2, v2⟩ := hd
    by_cases h2 : k2 = k
    · subst h2
      simp [setAssoc, assocGet, Ne.symm h]
    · simp only [setAssoc, if_neg h2, assocGet]
      by_cases h3 : k2 = k3
      · simp [h3]
      · simp [h3, ih]

theorem mergeFields_get_notMem (frag : List (String × Json)) (fs : List (String × Json))
    (k : String) (h : k ∉ frag.map Prod.fst) :
    assocGet (mergeFields fs frag) k = assocGet fs k := by
  induction frag generalizing fs with
  | nil => rfl
  | cons hd rest ih =>
    obtain ⟨k2, v2⟩ := hd
    simp only [List.map_cons, List.mem_cons, not_or] at h
    simp only [mergeFields]
    rw [ih _ h.2, setAssoc_get_ne _ _ _ _ h.1]

theorem mergeFields_get_mem (frag : List (String × Json)) (fs : List (String × Json))
    (k : String) (v : Json) (hnd : (frag.map Prod.fst).Nodup) (hmem : (k, v) ∈ frag) :
    assocGet (mergeFields fs frag) k = some v := by
  induction frag generalizing fs with
  | nil => cases hmem
  | cons hd rest ih =>
    obtain ⟨k2, v2⟩ := hd
    simp only [List.map_cons, List.nodup_cons] at hnd
    rcases List.mem_cons.mp hmem with heq | hrest
    · injection heq with hk hv
      subst hk
      subst hv
      simp only [mergeFields]
      rw [mergeFields_get_notMem _ _ _ hnd.1, setAssoc_get_self]
    · simp only [mergeFields]
      exact ih _ hnd.2 hrest

/- ## C1: RequestCreated handling -/

/-- JavaScript indexing xs[0] on a decoded array value. -/
def jsonFirst : Json → Json
  | .arr (x :: _) => x
  | _ => .null

/-- C1: a POST to the events route carrying a RequestCreated event with an
id and a data.pf fragment is first acknowledged 200, then the stub
authenticates against the configured destination auth endpoint with its
client credentials, and then posts a RequestFulfilled event to the
destination events endpoint whose data.requestEventId is the original
event id and whose data.pfs[0] is the fragment merged over the generated
default footprint — so every field of the fragment appears unchanged in
pfs[0]. -/
theorem requestCreated_acknowledge_then_callback
    (setting : StubSetting) (gen : FootprintGen) (freshEventId : String)
    (b64enc : String → String) (host : String) (ct : String)
    (body : Json) (fragFields : List (String × Json))
    (authResp eventsResp : HttpResp)
    (hct : strStartsWith ct "application/cloudevents+json" = true)
    (hobj : body.isObjOrArr = true)
    (htype : body.get "type" = Json.str createdType)
    (hid : (body.get "id").isNull = false)
    (hsrc : (body.get "source").isNull = false)
    (hdatann : (body.get "data").isNull = false)
    (hfrag : (body.get "data").get "pf" = Json.obj fragFields)
    (hnd : (fragFields.map Prod.fst).Nodup)
    (hauth : authResp.status = 200)
    (htok : (authResp.body.get "access_token").isNull = false)
    (hev : eventsResp.status = 200) :
    handleEvents setting gen freshEventId b64enc host (some ct) (some body)
        authResp eventsResp
      = ([StubAction.respond successResponse,
          StubAction.call
            { method := "post",
              url := setting.destinationServer.authContextPath ++
                setting.destinationServer.authPath,
              host := host, accept := some "application/json",
              contentType := "application/x-www-form-urlencoded",
              authorization := "Basic " ++ b64enc (setting.destinationServer.userName ++
                ":" ++ setting.destinationServer.password),
              body := Json.obj [("grant_type", Json.str "client_credentials")] },
          StubAction.call
            { method := "post",
              url := setting.destinationServer.dataContextPath ++
                setting.destinationServer.pathPrefex ++ "/events",
              host := host, accept := none,
              contentType := "application/cloudevents+json; charset=UTF-8",
              authorization := "Bearer " ++ (authResp.body.get "access_token").coerceString,
              body := Json.obj [
                ("type", Json.str fulfilledType),
                ("specversion", Json.str "1.0"),
                ("id", Json.str freshEventId),
                ("source", Json.str (setting.contextPath ++ "/2/events")),
                ("data", Json.obj [("requestEventId", body.get "id"),
                  ("pfs", Json.arr [Json.obj (mergeFields
                    (generateFootprintFields setting.data none gen) fragFields)])])] }],
         .ok body)
    ∧ (∀ k v, (k, v) ∈ fragFields →
        (Json.obj (mergeFields (generateFootprintFields setting.data none gen)
          fragFields)).get k = v) := by
  have hpub : jsonEqStr (Json.str createdType) publishedType = false := by decide
  have hcre : jsonEqStr (Json.str createdType) createdType = true := by decide
  constructor
  · have hty : (Json.str createdType).isNull = false := rfl
    have hfr : (Json.obj fragFields).isNull = false := rfl
    have hff : (Json.obj fragFields).fieldsOf = fragFields := rfl
    simp only [handleEvents, handleRequestCreated, hobj, hct, htype, hpub, hcre, hty,
      hid, hsrc, hdatann, hfrag, hfr, hff, hauth, hev,
      Bool.not_true, Bool.not_false, Bool.false_and, Bool.and_false, Bool.true_and,
      Bool.and_true, Bool.false_eq_true, if_false, if_true]
    have hacc : (if (200 : Nat) = 200 then authResp.body.get "access_token" else Json.null)
        = authResp.body.get "access_token" := if_pos rfl
    simp only [hacc, htok, Bool.false_eq_true, if_false]
    rw [if_neg (by simp)]
    simp
  · intro k v hm
    have hg := mergeFields_get_mem fragFields
      (generateFootprintFields setting.data none gen) k v hnd hm
    simp [Json.get, hg]

/-- A concrete stub setting for witness instantiations. -/
def settingW : StubSetting :=
  { contextPath := "http://localhost:3000",
    destinationServer :=
      { authContextPath := "https://auth.example.com",
        authPath := "/auth/token",
        userName := "user",
        password := "pass",
        dataContextPath := "https://data.example.com",
        pathPrefex := "/2" },
    data := none }

/-- Concrete generated values for witness instantiations. -/
def genW : FootprintGen :=
  { idUuid := "3fae5c0a-0000-0000-0000-000000000001",
    companyUuid := "3fae5c0a-0000-0000-0000-000000000002",
    productUuid := "3fae5c0a-0000-0000-0000-000000000003",
    created := "2024-05-01T00:00:00Z", refStart := "2024-04-01T00:00:00Z",
    refEnd := "2024-04-11T00:00:00Z" }

/-- A concrete valid RequestCreated envelope whose pf fragment carries
companyIds ["urn:uuid:A"]. -/
def bodyW : Json := Json.obj [
  ("type", Json.str createdType),
  ("specversion", Json.str "1.0"),
  ("id", Json.str "evt-1"),
  ("source", Json.str "https://data.example.com/2/events"),
  ("data", Json.obj [
    ("pf", Json.obj [("companyIds", Json.arr [Json.str "urn:uuid:A"])]),
    ("comment", Json.str "Please send PCF data for this year.")])]

set_option maxRecDepth 8000 in
/-- Witness for C1: on the concrete RequestCreated event, handling
succeeds with the original envelope, and the synthesized footprint the
fulfilled event carries has companyIds ["urn:uuid:A"] from the fragment. -/
theorem requestCreated_acknowledge_then_callback_witness :
    (handleEvents settingW genW "fresh-evt" (fun s => s) "localhost"
        (some "application/cloudevents+json") (some bodyW)
        ⟨200, Json.obj [("access_token", Json.str "tok")]⟩ ⟨200, Json.null⟩).2 = .ok bodyW
    ∧ (Json.obj (mergeFields (generateFootprintFields settingW.data none genW)
        [("companyIds", Json.arr [Json.str "urn:uuid:A"])])).get "companyIds"
      = Json.arr [Json.str "urn:uuid:A"] := by
  have h := requestCreated_acknowledge_then_callback settingW genW "fresh-evt"
    (fun s => s) "localhost" "application/cloudevents+json" bodyW
    [("companyIds", Json.arr [Json.str "urn:uuid:A"])]
    ⟨200, Json.obj [("access_token", Json.str "tok")]⟩ ⟨200, Json.null⟩
    (by decide) (by rfl) (by rfl) (by rfl) (by rfl) (by rfl) (by rfl)
    (by simp) (by rfl) (by rfl) (by rfl)
  exact ⟨by rw [h.1], h.2 "companyIds" (Json.arr [Json.str "urn:uuid:A"]) (by simp)⟩

/- ## C2: productIdsVariation de-duplication -/

/-- Counterexample for C2. The claimed rule (a record is a duplicate
exactly when every one of the record's identifiers already appears in a
previously recorded combination) is the reverse of the code, which skips a
record when every identifier of some previously recorded combination
appears in the record. First input: previously recorded ["urn:a"], then a
record with ["urn:a","urn:b"]; under the claimed rule the second is not a
duplicate, but the code skips it, leaving one variation. Second input: two
records with distinct created values and disjoint productIds (the first
empty), for which the claim asserts both variations have length 2, yet the
code records only one productIds variation. -/
theorem productIdsVariation_dedup_counterexample :
    (jsonEvery (Json.arr [Json.str "urn:a", Json.str "urn:b"])
        (fun productId => jsonIncludes (Json.arr [Json.str "urn:a"]) productId) = false
    ∧ productIdsVariation
        [Json.obj [("created", Json.str "2024-01-01T00:00:00Z"),
           ("productIds", Json.arr [Json.str "urn:a"])],
         Json.obj [("created", Json.str "2024-01-02T00:00:00Z"),
           ("productIds", Json.arr [Json.str "urn:a", Json.str "urn:b"])]]
      = [Json.arr [Json.str "urn:a"]])
    ∧ (jsonBeq (Json.str "2024-01-01T00:00:00Z") (Json.str "2024-01-02T00:00:00Z") = false
    ∧ (([] : List Json).all
        (fun x => !(jsonIncludes (Json.arr [Json.str "urn:b"]) x)) = true
    ∧ (createdVariation
        [Json.obj [("created", Json.str "2024-01-01T00:00:00Z"),
           ("productIds", Json.arr [])],
         Json.obj [("created", Json.str "2024-01-02T00:00:00Z"),
           ("productIds", Json.arr [Json.str "urn:b"])]]).length = 2
    ∧ (productIdsVariation
        [Json.obj [("created", Json.str "2024-01-01T00:00:00Z"),
           ("productIds", Json.arr [])],
         Json.obj [("created", Json.str "2024-01-02T00:00:00Z"),
           ("productIds", Json.arr [Json.str "urn:b"])]]).length = 1)) :=
  ⟨⟨rfl, rfl⟩, rfl, rfl, rfl, rfl⟩

/-- C2 amended: the code's de-duplication rule is the converse of the
claimed one — a record's productIds combination is a duplicate exactly
when some previously recorded combination has every one of its own
identifiers contained in the record's productIds; and for two records
with distinct created values and disjoint productIds where the first
record's productIds is nonempty, both derived variations have length 2. -/
theorem productIdsVariation_dedup_amended
    (fps : List Json) (r : Json) (c1 c2 : Json) (ids1 ids2 : List Json)
    (hc : jsonBeq c1 c2 = false)
    (hne : ids1 ≠ [])
    (hdisj : ∀ x ∈ ids1, jsonIncludes (Json.arr ids2) x = false) :
    productIdsVariation (fps ++ [r])
      = (if (productIdsVariation fps).any (fun entry => jsonEvery entry
            (fun productId => jsonIncludes (r.get "productIds") productId))
         then productIdsVariation fps
         else productIdsVariation fps ++ [r.get "productIds"])
    ∧ createdVariation
        [Json.obj [("created", c1), ("productIds", Json.arr ids1)],
         Json.obj [("created", c2), ("productIds", Json.arr ids2)]]
      = [c1, c2]
    ∧ productIdsVariation
        [Json.obj [("created", c1), ("productIds", Json.arr ids1)],
         Json.obj [("created", c2), ("productIds", Json.arr ids2)]]
      = [Json.arr ids1, Json.arr ids2] := by
  refine ⟨?_, ?_, ?_⟩
  · simp only [productIdsVariation, List.foldl_append, List.foldl_cons, List.foldl_nil]
  · simp [createdVariation, Json.get, assocGet, hc]
  · have hall : ids1.all (fun productId => jsonIncludes (Json.arr ids2) productId) = false := by
      cases ids1 with
      | nil => exact absurd rfl hne
      | cons x rest => simp [List.all_cons, hdisj x (by simp)]
    simp [productIdsVariation, Json.get, assocGet, jsonEvery, hall]

/-- Witness for C2: two concrete records with distinct created values and
disjoint nonempty productIds yield two created variations and two
productIds variations. -/
theorem productIdsVariation_dedup_amended_witness :
    createdVariation
      [Json.obj [("created", Json.str "2024-01-01T00:00:00Z"),
         ("productIds", Json.arr [Json.str "urn:x"])],
       Json.obj [("created", Json.str "2024-01-02T00:00:00Z"),
         ("productIds", Json.arr [Json.str "urn:y"])]]
      = [Json.str "2024-01-01T00:00:00Z", Json.str "2024-01-02T00:00:00Z"]
    ∧ productIdsVariation
      [Json.obj [("created", Json.str "2024-01-01T00:00:00Z"),
         ("productIds", Json.arr [Json.str "urn:x"])],
       Json.obj [("created", Json.str "2024-01-02T00:00:00Z"),
         ("productIds", Json.arr [Json.str "urn:y"])]]
      = [Json.arr [Json.str "urn:x"], Json.arr [Json.str "urn:y"]] := by
  have h := productIdsVariation_dedup_amended [] Json.null
    (Json.str "2024-01-01T00:00:00Z") (Json.str "2024-01-02T00:00:00Z")
    [Json.str "urn:x"] [Json.str "urn:y"] (by decide) (by simp) (by decide)
  exact ⟨h.2.1, h.2.2⟩

/- ## Helper lemmas about the orchestrator run -/

/-- The requests issued through the positive authentication step. -/
def vreqsPrefix (acp un pw : String) (env : VEnv) (pickUser pickPass : Nat → Nat) :
    List VReq :=
  [VReq.discoveryGet (acp ++ "/.well-known/openid-configuration"),
   VReq.authPost (resolvedAuthUrl acp env) (randomString pickUser 16)
     (randomString pickPass 16),
   VReq.authPost (resolvedAuthUrl acp env) un pw]

theorem validate_version_cases
    (ver acp un pw dcp : String) (fs ls es : Option Bool) (scp : Option String)
    (env : VEnv) (pickUser pickPass : Nat → Nat)
    (hneg : env.negAuth.status ≠ 200)
    (hpos : env.posAuth.status = 200)
    (htok : (env.posAuth.body.get "access_token").isNull = false) :
    (strStartsWith ver "1" = true →
      validate ⟨some ver, some acp, some un, some pw, some dcp, fs, ls, es, scp⟩
          env pickUser pickPass
        = validateFootprintsStage dcp "/0" (fs.getD false) (ls.getD false) (es.getD false)
            env (vreqsPrefix acp un pw env pickUser pickPass))
    ∧ (strStartsWith ver "1" = false → strStartsWith ver "2" = true →
      validate ⟨some ver, some acp, some un, some pw, some dcp, fs, ls, es, scp⟩
          env pickUser pickPass
        = validateFootprintsStage dcp "/2" (fs.getD false) (ls.getD false) (es.getD false)
            env (vreqsPrefix acp un pw env pickUser pickPass))
    ∧ (strStartsWith ver "1" = false → strStartsWith ver "2" = false →
      validate ⟨some ver, some acp, some un, some pw, some dcp, fs, ls, es, scp⟩
          env pickUser pickPass
        = (.thrown "Invalid specVersion.", vreqsPrefix acp un pw env pickUser pickPass)) := by
  refine ⟨?_, ?_, ?_⟩
  · intro h1
    simp only [validate]
    rw [if_neg hneg, if_neg (by simp [hpos]), if_neg (by simp [htok]), if_pos h1]
    simp [vreqsPrefix]
  · intro h1 h2
    simp only [validate]
    rw [if_neg hneg, if_neg (by simp [hpos]), if_neg (by simp [htok]),
      if_neg (by simp [h1]), if_pos h2]
    simp [vreqsPrefix]
  · intro h1 h2
    simp only [validate]
    rw [if_neg hneg, if_neg (by simp [hpos]), if_neg (by simp [htok]),
      if_neg (by simp [h1]), if_neg (by simp [h2])]
    simp [vreqsPrefix]

theorem stage_requests (dcp pfx : String) (fS lS eS : Bool) (env : VEnv)
    (reqs : List VReq) :
    (validateFootprintsStage dcp pfx fS lS eS env reqs).2
      = reqs ++ [VReq.footprintsGet (dcp ++ pfx ++ "/footprints")] := by
  simp only [validateFootprintsStage]
  repeat' split <;> try rfl

theorem stage_single_record (dcp pfx : String) (fS lS eS : Bool) (env : VEnv)
    (reqs : List VReq) (fp : Json)
    (hfst : env.footprints.status = 200)
    (hbody : env.footprints.body.isNull = false)
    (hdata : env.footprints.body.get "data" = Json.arr [fp]) :
    validateFootprintsStage dcp pfx fS lS eS env reqs
      = ((if (fS || lS) = true then VOutcome.ngSingleRecord
          else VOutcome.thrown "TypeError: Cannot read properties of undefined"),
         reqs ++ [VReq.footprintsGet (dcp ++ pfx ++ "/footprints")]) := by
  simp only [validateFootprintsStage]
  rw [if_neg (by simp [hfst]), if_neg (by simp [hbody]), hdata]
  simp only [List.length_cons, List.length_nil]
  norm_num
  split <;> rfl

theorem randomString_length (pick : Nat → Nat) (n : Nat) :
    (randomString pick n).length = n := by
  show ((List.range n).map fun i =>
    randomAlphabet.toList.getD (pick i % randomAlphabet.length) 'a').length = n
  simp

/- ## C3: negative authentication check stops the run -/

/-- C3: when the intentionally wrong credential pair is answered 200, the
orchestrator reports the conformance failure and stops: the only requests
ever issued are the discovery probe and the negative authentication post
itself — no positive authentication, no footprint listing and no assembled
test set follow. The wrong credentials are the random 16-character strings
drawn from the alphanumeric alphabet. -/
theorem negativeAuth_stops_run
    (ver acp un pw dcp : String) (fs ls es : Option Bool) (scp : Option String)
    (env : VEnv) (pickUser pickPass : Nat → Nat)
    (hneg : env.negAuth.status = 200) :
    validate ⟨some ver, some acp, some un, some pw, some dcp, fs, ls, es, scp⟩
        env pickUser pickPass
      = (VOutcome.ngIncorrectCredentials,
         [VReq.discoveryGet (acp ++ "/.well-known/openid-configuration"),
          VReq.authPost (resolvedAuthUrl acp env)
            (randomString pickUser 16) (randomString pickPass 16)])
    ∧ (randomString pickUser 16).length = 16
    ∧ (randomString pickPass 16).length = 16 := by
  refine ⟨?_, randomString_length pickUser 16, randomString_length pickPass 16⟩
  simp only [validate]
  rw [if_pos hneg]

/-- Witness for C3: a concrete run whose negative authentication check is
answered 200 ends immediately with the incorrect-credentials failure,
after exactly the discovery and negative-auth requests. -/
theorem negativeAuth_stops_run_witness :
    (validate ⟨some "2.2.0", some "http://a", some "u", some "p", some "http://d",
        none, none, none, none⟩
      ⟨⟨404, Json.null⟩, ⟨200, Json.null⟩, ⟨404, Json.null⟩, ⟨404, Json.null⟩⟩
      (fun _ => 0) (fun _ => 0)).1 = VOutcome.ngIncorrectCredentials
    ∧ ((validate ⟨some "2.2.0", some "http://a", some "u", some "p", some "http://d",
        none, none, none, none⟩
      ⟨⟨404, Json.null⟩, ⟨200, Json.null⟩, ⟨404, Json.null⟩, ⟨404, Json.null⟩⟩
      (fun _ => 0) (fun _ => 0)).2).length = 2 := by
  have h := negativeAuth_stops_run "2.2.0" "http://a" "u" "p" "http://d"
    none none none none
    ⟨⟨404, Json.null⟩, ⟨200, Json.null⟩, ⟨404, Json.null⟩, ⟨404, Json.null⟩⟩
    (fun _ => 0) (fun _ => 0) rfl
  refine ⟨?_, ?_⟩
  · rw [h.1]
  · rw [h.1]
    rfl

/- ## C6: one-record list versus capability flags -/

/-- Counterexample for C6. The claim says a one-record list with both
capability flags false is not a failure, but the source still aborts on
that input: the single-record check of validator.js 176-180 passes, yet
the test-case list built right after reads createdVariation[0]
(validator.js 238) while createdVariation is still undefined, so validate
throws a TypeError and never hands anything to the assertion engine. The
concrete run below has exactly one footprint record and both flags unset,
and ends with the thrown TypeError, not a success. -/
theorem singleRecord_no_flags_counterexample :
    ([Json.obj []] : List Json).length = 1
    ∧ (validate ⟨some "2.2.0", some "http://a", some "u", some "p", some "http://d",
        none, none, none, none⟩
      ⟨⟨404, Json.null⟩, ⟨404, Json.null⟩,
       ⟨200, Json.obj [("access_token", Json.str "tok")]⟩,
       ⟨200, Json.obj [("data", Json.arr [Json.obj []])]⟩⟩
      (fun _ => 0) (fun _ => 0)).1
      = VOutcome.thrown "TypeError: Cannot read properties of undefined" :=
  ⟨rfl, rfl⟩

/-- C6 amended: when the footprint listing returns exactly one record, a
claimed filter or limit capability is the single-record hard failure,
reported before any test set is assembled; with both flags false the
explicit single-record check passes, but the run still aborts before any
hand-off — assembling the test cases reads the never-assigned
createdVariation and throws a TypeError. -/
theorem singleRecord_capability_failure
    (ver acp un pw dcp : String) (fs ls es : Option Bool) (scp : Option String)
    (env : VEnv) (pickUser pickPass : Nat → Nat) (fp : Json)
    (hneg : env.negAuth.status ≠ 200)
    (hpos : env.posAuth.status = 200)
    (htok : (env.posAuth.body.get "access_token").isNull = false)
    (hver : strStartsWith ver "1" = true ∨
      (strStartsWith ver "1" = false ∧ strStartsWith ver "2" = true))
    (hfst : env.footprints.status = 200)
    (hbody : env.footprints.body.isNull = false)
    (hdata : env.footprints.body.get "data" = Json.arr [fp]) :
    ((fs.getD false || ls.getD false) = true →
      (validate ⟨some ver, some acp, some un, some pw, some dcp, fs, ls, es, scp⟩
        env pickUser pickPass).1 = VOutcome.ngSingleRecord)
    ∧ ((fs.getD false || ls.getD false) = false →
      (validate ⟨some ver, some acp, some un, some pw, some dcp, fs, ls, es, scp⟩
        env pickUser pickPass).1
          = VOutcome.thrown "TypeError: Cannot read properties of undefined") := by
  have hcases := validate_version_cases ver acp un pw dcp fs ls es scp env
    pickUser pickPass hneg hpos htok
  have hv : ∃ pfx, validate ⟨some ver, some acp, some un, some pw, some dcp,
      fs, ls, es, scp⟩ env pickUser pickPass
      = validateFootprintsStage dcp pfx (fs.getD false) (ls.getD false) (es.getD false)
          env (vreqsPrefix acp un pw env pickUser pickPass) := by
    rcases hver with h1 | ⟨h1, h2⟩
    · exact ⟨"/0", hcases.1 h1⟩
    · exact ⟨"/2", hcases.2.1 h1 h2⟩
  obtain ⟨pfx, hv⟩ := hv
  rw [hv, stage_single_record dcp pfx _ _ _ env _ fp hfst hbody hdata]
  constructor
  · intro hcap
    simp [hcap]
  · intro hcap
    simp [hcap]

/-- Witness for C6 amended: with one footprint record, limitSupport true
fails with the single-record NG outcome, while both flags absent end in
the thrown TypeError from the test-set assembly. -/
theorem singleRecord_capability_failure_witness :
    (validate ⟨some "2.2.0", some "http://a", some "u", some "p", some "http://d",
        none, some true, none, none⟩
      ⟨⟨404, Json.null⟩, ⟨404, Json.null⟩,
       ⟨200, Json.obj [("access_token", Json.str "tok")]⟩,
       ⟨200, Json.obj [("data", Json.arr [Json.obj []])]⟩⟩
      (fun _ => 0) (fun _ => 0)).1 = VOutcome.ngSingleRecord
    ∧ (validate ⟨some "2.2.0", some "http://a", some "u", some "p", some "http://d",
        none, none, none, none⟩
      ⟨⟨404, Json.null⟩, ⟨404, Json.null⟩,
       ⟨200, Json.obj [("access_token", Json.str "tok")]⟩,
       ⟨200, Json.obj [("data", Json.arr [Json.obj []])]⟩⟩
      (fun _ => 0) (fun _ => 0)).1
      = VOutcome.thrown "TypeError: Cannot read properties of undefined" := by
  constructor
  · exact (singleRecord_capability_failure "2.2.0" "http://a" "u" "p" "http://d"
      none (some true) none none
      (⟨⟨404, Json.null⟩, ⟨404, Json.null⟩,
       ⟨200, Json.obj [("access_token", Json.str "tok")]⟩,
       ⟨200, Json.obj [("data", Json.arr [Json.obj []])]⟩⟩)
      (fun _ => 0) (fun _ => 0) (Json.obj [])
      (by decide) rfl rfl (Or.inr ⟨by decide, by decide⟩) rfl rfl rfl).1 rfl
  · exact (singleRecord_capability_failure "2.2.0" "http://a" "u" "p"
      "http://d" none none none none
      (⟨⟨404, Json.null⟩, ⟨404, Json.null⟩,
       ⟨200, Json.obj [("access_token", Json.str "tok")]⟩,
       ⟨200, Json.obj [("data", Json.arr [Json.obj []])]⟩⟩)
      (fun _ => 0) (fun _ => 0) (Json.obj [])
      (by decide) rfl rfl (Or.inr ⟨by decide, by decide⟩) rfl rfl rfl).2 rfl

/- ## C8: path prefix from the declared specification version -/

/-- C8: once authentication has succeeded, the path prefix is determined
solely by the declared version string: a version starting with "1" makes
the footprint listing request hit dataContextPath ++ /0/footprints, a
version starting with "2" hits /2/footprints, and any other version makes
the run end with the thrown Invalid specVersion configuration error before
any footprint-listing request is issued. -/
theorem pathPrefex_from_version
    (ver acp un pw dcp : String) (fs ls es : Option Bool) (scp : Option String)
    (env : VEnv) (pickUser pickPass : Nat → Nat)
    (hneg : env.negAuth.status ≠ 200)
    (hpos : env.posAuth.status = 200)
    (htok : (env.posAuth.body.get "access_token").isNull = false) :
    (strStartsWith ver "1" = true →
      (validate ⟨some ver, some acp, some un, some pw, some dcp, fs, ls, es, scp⟩
        env pickUser pickPass).2
        = vreqsPrefix acp un pw env pickUser pickPass
            ++ [VReq.footprintsGet (dcp ++ "/0" ++ "/footprints")])
    ∧ (strStartsWith ver "1" = false → strStartsWith ver "2" = true →
      (validate ⟨some ver, some acp, some un, some pw, some dcp, fs, ls, es, scp⟩
        env pickUser pickPass).2
        = vreqsPrefix acp un pw env pickUser pickPass
            ++ [VReq.footprintsGet (dcp ++ "/2" ++ "/footprints")])
    ∧ (strStartsWith ver "1" = false → strStartsWith ver "2" = false →
      (validate ⟨some ver, some acp, some un, some pw, some dcp, fs, ls, es, scp⟩
          env pickUser pickPass).1 = VOutcome.thrown "Invalid specVersion."
      ∧ ∀ u, VReq.footprintsGet u ∉
          (validate ⟨some ver, some acp, some un, some pw, some dcp, fs, ls, es, scp⟩
            env pickUser pickPass).2) := by
  have hcases := validate_version_cases ver acp un pw dcp fs ls es scp env
    pickUser pickPass hneg hpos htok
  refine ⟨?_, ?_, ?_⟩
  · intro h1
    rw [hcases.1 h1, stage_requests]
  · intro h1 h2
    rw [hcases.2.1 h1 h2, stage_requests]
  · intro h1 h2
    rw [hcases.2.2 h1 h2]
    exact ⟨rfl, by intro u; simp [vreqsPrefix]⟩

/-- Witness for C8: with version 2.2.0 the footprint listing is requested
at the /2 prefix, and with version 3.0.0 the run throws the configuration
error and no footprint listing is requested. -/
theorem pathPrefex_from_version_witness :
    (validate ⟨some "2.2.0", some "http://a", some "u", some "p", some "http://d",
        none, none, none, none⟩
      ⟨⟨404, Json.null⟩, ⟨404, Json.null⟩,
       ⟨200, Json.obj [("access_token", Json.str "tok")]⟩,
       ⟨200, Json.obj [("data", Json.arr [Json.obj []])]⟩⟩
      (fun _ => 0) (fun _ => 0)).2
      = vreqsPrefix "http://a" "u" "p"
          ⟨⟨404, Json.null⟩, ⟨404, Json.null⟩,
           ⟨200, Json.obj [("access_token", Json.str "tok")]⟩,
           ⟨200, Json.obj [("data", Json.arr [Json.obj []])]⟩⟩
          (fun _ => 0) (fun _ => 0)
          ++ [VReq.footprintsGet ("http://d" ++ "/2" ++ "/footprints")]
    ∧ (validate ⟨some "3.0.0", some "http://a", some "u", some "p", some "http://d",
        none, none, none, none⟩
      ⟨⟨404, Json.null⟩, ⟨404, Json.null⟩,
       ⟨200, Json.obj [("access_token", Json.str "tok")]⟩,
       ⟨200, Json.obj [("data", Json.arr [Json.obj []])]⟩⟩
      (fun _ => 0) (fun _ => 0)).1 = VOutcome.thrown "Invalid specVersion." := by
  constructor
  · exact (pathPrefex_from_version "2.2.0" "http://a" "u" "p" "http://d"
      none none none none
      ⟨⟨404, Json.null⟩, ⟨404, Json.null⟩,
       ⟨200, Json.obj [("access_token", Json.str "tok")]⟩,
       ⟨200, Json.obj [("data", Json.arr [Json.obj []])]⟩⟩
      (fun _ => 0) (fun _ => 0) (by decide) rfl rfl).2.1 (by decide) (by decide)
  · exact ((pathPrefex_from_version "3.0.0" "http://a" "u" "p" "http://d"
      none none none none
      ⟨⟨404, Json.null⟩, ⟨404, Json.null⟩,
       ⟨200, Json.obj [("access_token", Json.str "tok")]⟩,
       ⟨200, Json.obj [("data", Json.arr [Json.obj []])]⟩⟩
      (fun _ => 0) (fun _ => 0) (by decide) rfl rfl).2.2 (by decide) (by decide)).1

/- ## C7: routing -/

/-- Counterexample for C7. The url /2/footprintsXYZ is none of the four
declared routes — not /auth/token, not /2/footprints, not /2/events, and
not /2/footprints/{id} (it has no further slash) — yet the server does not
answer 404: the source routes any url merely starting with /2/footprints
to the footprints handler, which here rejects the missing bearer header
with a 403 AccessDenied response. -/
theorem routing_exact_match_counterexample :
    ("/2/footprintsXYZ" ≠ "/auth/token"
    ∧ "/2/footprintsXYZ" ≠ "/2/footprints"
    ∧ "/2/footprintsXYZ" ≠ "/2/events"
    ∧ strStartsWith "/2/footprintsXYZ" "/2/footprints/" = false)
    ∧ stubHandleRequest settingW genW "f" (fun s => s) (fun s => s) hmacW encW decW 0 "h"
        ⟨200, Json.null⟩ ⟨200, Json.null⟩
        ⟨some "/2/footprintsXYZ", none, none, none⟩
      = ([StubAction.respond (forbiddenResponse
          "The authorization header of the request is empty.")],
         [StubEmit.errorEvent "The authorization header of the request is empty."])
    ∧ (forbiddenResponse "The authorization header of the request is empty.").status
        = 403 :=
  ⟨⟨by decide, by decide, by decide, by decide⟩, rfl, rfl⟩

/-- C7 amended: the stub matches /auth/token and /2/events exactly and the
footprints route by the prefix /2/footprints; every request whose url is
absent or matches none of these three patterns receives the 404 response
with the plain-text body Not Found, and nothing is emitted. -/
theorem routing_not_found_amended
    (setting : StubSetting) (gen : FootprintGen) (freshEventId : String)
    (b64enc b64dec : String → String)
    (hmac : String → List Char → List Char) (enc : Json → List Char)
    (dec : List Char → Option Json) (now : ℚ) (host : String)
    (aResp eResp : HttpResp) (req : StubRequest) :
    (req.url = none →
      stubHandleRequest setting gen freshEventId b64enc b64dec hmac enc dec now host
          aResp eResp req
        = ([StubAction.respond ⟨404, some "text/plain", RespBody.text "Not Found"⟩], []))
    ∧ (∀ u, req.url = some u →
        u ≠ "/auth/token" → strStartsWith u "/2/footprints" = false → u ≠ "/2/events" →
        stubHandleRequest setting gen freshEventId b64enc b64dec hmac enc dec now host
            aResp eResp req
          = ([StubAction.respond ⟨404, some "text/plain", RespBody.text "Not Found"⟩], [])) := by
  constructor
  · intro hu
    simp only [stubHandleRequest, hu]
    rfl
  · intro u hu h1 h2 h3
    simp only [stubHandleRequest, hu]
    rw [if_neg h1, if_neg (by simp [h2]), if_neg h3]
    rfl

/-- Witness for C7 amended: a request for /some/other/path is answered 404
plain text with nothing emitted. -/
theorem routing_not_found_amended_witness :
    stubHandleRequest settingW genW "f" (fun s => s) (fun s => s) hmacW encW decW 0 "h"
        ⟨200, Json.null⟩ ⟨200, Json.null⟩ ⟨some "/some/other/path", none, none, none⟩
      = ([StubAction.respond ⟨404, some "text/plain", RespBody.text "Not Found"⟩], []) :=
  (routing_not_found_amended settingW genW "f" (fun s => s) (fun s => s) hmacW encW decW
    0 "h" ⟨200, Json.null⟩ ⟨200, Json.null⟩
    ⟨some "/some/other/path", none, none, none⟩).2
    "/some/other/path" rfl (by decide) (by decide) (by decide)

/- ## C10: malformed Basic authentication on the token route -/

/-- C10: on the /auth/token route, a missing authorization header, a
non-Basic scheme, or a Basic credential that does not decode to exactly
two colon-separated parts is answered 401 with the bare message as a
plain-text body — not the code/message json error shape of the 403 and
400 paths — and the error event carrying the same message is emitted. -/
theorem authToken_malformed_unauthorized
    (setting : StubSetting) (gen : FootprintGen) (freshEventId : String)
    (b64enc b64dec : String → String)
    (hmac : String → List Char → List Char) (enc : Json → List Char)
    (dec : List Char → Option Json) (now : ℚ) (host : String)
    (aResp eResp : HttpResp) (ctOpt : Option String) (bodyOpt : Option Json) :
    (stubHandleRequest setting gen freshEventId b64enc b64dec hmac enc dec now host
        aResp eResp ⟨some "/auth/token", none, ctOpt, bodyOpt⟩
      = ([StubAction.respond ⟨401, some "text/plain",
          RespBody.text "The authorization header of the request is empty."⟩],
         [StubEmit.errorEvent "The authorization header of the request is empty."]))
    ∧ (∀ a, strStartsWith a "Basic " = false →
        stubHandleRequest setting gen freshEventId b64enc b64dec hmac enc dec now host
            aResp eResp ⟨some "/auth/token", some a, ctOpt, bodyOpt⟩
          = ([StubAction.respond ⟨401, some "text/plain",
              RespBody.text ("The authorization header of the request is invalid. " ++ a)⟩],
             [StubEmit.errorEvent
               ("The authorization header of the request is invalid. " ++ a)]))
    ∧ (∀ a, strStartsWith a "Basic " = true →
        (splitChar ':' (b64dec (strTrim (strDrop a "Basic ".length))).toList).length ≠ 2 →
        stubHandleRequest setting gen freshEventId b64enc b64dec hmac enc dec now host
            aResp eResp ⟨some "/auth/token", some a, ctOpt, bodyOpt⟩
          = ([StubAction.respond ⟨401, some "text/plain",
              RespBody.text ("The authorization header of the request is invalid. "
                ++ strTrim (strDrop a "Basic ".length))⟩],
             [StubEmit.errorEvent ("The authorization header of the request is invalid. "
                ++ strTrim (strDrop a "Basic ".length))])) := by
  refine ⟨?_, ?_, ?_⟩
  · simp only [stubHandleRequest, if_true]
    rfl
  · intro a ha
    simp only [stubHandleRequest, if_true]
    simp only [handleAuthenticate, ha, Bool.not_false, if_true]
    rfl
  · intro a ha hlen
    simp only [stubHandleRequest, if_true]
    simp only [handleAuthenticate, ha, Bool.not_true, Bool.false_eq_true, if_false]
    rw [if_pos hlen]
    rfl

/-- Witness for C10: the three malformed header shapes on concrete
requests — no header, a Bearer header, and a Basic credential decoding to
a single colon-free part — each yield the 401 plain-text response and the
emitted error. -/
theorem authToken_malformed_unauthorized_witness :
    (stubHandleRequest settingW genW "f" (fun s => s) (fun s => s) hmacW encW decW 0 "h"
        ⟨200, Json.null⟩ ⟨200, Json.null⟩ ⟨some "/auth/token", none, none, none⟩
      = ([StubAction.respond ⟨401, some "text/plain",
          RespBody.text "The authorization header of the request is empty."⟩],
         [StubEmit.errorEvent "The authorization header of the request is empty."]))
    ∧ (stubHandleRequest settingW genW "f" (fun s => s) (fun s => s) hmacW encW decW 0 "h"
        ⟨200, Json.null⟩ ⟨200, Json.null⟩
        ⟨some "/auth/token", some "Bearer abc", none, none⟩
      = ([StubAction.respond ⟨401, some "text/plain",
          RespBody.text "The authorization header of the request is invalid. Bearer abc"⟩],
         [StubEmit.errorEvent
           "The authorization header of the request is invalid. Bearer abc"]))
    ∧ (stubHandleRequest settingW genW "f" (fun s => s) (fun s => s) hmacW encW decW 0 "h"
        ⟨200, Json.null⟩ ⟨200, Json.null⟩
        ⟨some "/auth/token", some "Basic nocolon", none, none⟩
      = ([StubAction.respond ⟨401, some "text/plain",
          RespBody.text "The authorization header of the request is invalid. nocolon"⟩],
         [StubEmit.errorEvent
           "The authorization header of the request is invalid. nocolon"])) := by
  have h := authToken_malformed_unauthorized settingW genW "f" (fun s => s) (fun s => s)
    hmacW encW decW 0 "h" ⟨200, Json.null⟩ ⟨200, Json.null⟩ none none
  refine ⟨h.1, ?_, ?_⟩
  · have h2 := h.2.1 "Bearer abc" (by decide)
    simpa using h2
  · have h3 := h.2.2 "Basic nocolon" (by decide) (by decide)
    simpa using h3

/- ## C9: data event emission on the events route -/

set_option maxRecDepth 8000 in
/-- Counterexample for C9. A RequestCreated event that passes authorization
and every envelope and type-specific validation check makes the server
emit no data event at all when the outbound authentication against the
destination fails: the 200 acknowledgment was already written (the first
recorded action below), so when the Authentication error is thrown the
catch of stub.js 106-109 tries to write a 400 after the headers were
sent, that write itself throws, and the error emission of stub.js 108 is
skipped — the emission list is empty. -/
theorem events_data_emission_counterexample :
    (handleAuthorization hmacW encW decW 0
        (some ("Bearer " ++ String.mk (generateJwtToken hmacW encW 0))) = .ok ()
    ∧ strStartsWith "application/cloudevents+json" "application/cloudevents+json" = true
    ∧ bodyW.isObjOrArr = true
    ∧ bodyW.get "type" = Json.str createdType
    ∧ (bodyW.get "id").isNull = false
    ∧ (bodyW.get "source").isNull = false
    ∧ (bodyW.get "data").isNull = false
    ∧ ((bodyW.get "data").get "pf").isNull = false)
    ∧ (stubHandleRequest settingW genW "f" (fun s => s) (fun s => s) hmacW encW decW 0 "h"
        ⟨401, Json.null⟩ ⟨200, Json.null⟩
        ⟨some "/2/events", some ("Bearer " ++ String.mk (generateJwtToken hmacW encW 0)),
         some "application/cloudevents+json", some bodyW⟩).1
      = [StubAction.respond successResponse,
         StubAction.call
           { method := "post", url := "https://auth.example.com/auth/token",
             host := "h", accept := some "application/json",
             contentType := "application/x-www-form-urlencoded",
             authorization := "Basic user:pass",
             body := Json.obj [("grant_type", Json.str "client_credentials")] }]
    ∧ (stubHandleRequest settingW genW "f" (fun s => s) (fun s => s) hmacW encW decW 0 "h"
        ⟨401, Json.null⟩ ⟨200, Json.null⟩
        ⟨some "/2/events", some ("Bearer " ++ String.mk (generateJwtToken hmacW encW 0)),
         some "application/cloudevents+json", some bodyW⟩).2
      = ([] : List StubEmit) :=
  ⟨⟨rfl, rfl, rfl, rfl, rfl, rfl, rfl, rfl⟩, rfl, rfl⟩

/-- C9 amended: for every POST to the events route that passes
authorization and all envelope and type-specific validation — any of the
four recognized event types, with the proviso that for RequestCreated the
outbound authentication and fulfilled-event round trip must also succeed —
the server emits exactly the data event carrying the full parsed request
envelope. When a valid RequestCreated event's outbound authentication
fails instead, nothing is emitted at all: the failure arises after the
200 acknowledgment, and reporting it fails on the already-sent headers. -/
theorem events_data_emission_amended
    (setting : StubSetting) (gen : FootprintGen) (freshEventId : String)
    (b64enc b64dec : String → String)
    (hmac : String → List Char → List Char) (enc : Json → List Char)
    (dec : List Char → Option Json) (now : ℚ) (host : String)
    (authResp eventsResp : HttpResp) (authz : Option String) (ct : String) (body : Json)
    (hauth : handleAuthorization hmac enc dec now authz = .ok ())
    (hct : strStartsWith ct "application/cloudevents+json" = true)
    (hobj : body.isObjOrArr = true)
    (hid : (body.get "id").isNull = false)
    (hsrc : (body.get "source").isNull = false) :
    (body.get "type" = Json.str publishedType →
      (stubHandleRequest setting gen freshEventId b64enc b64dec hmac enc dec now host
        authResp eventsResp ⟨some "/2/events", authz, some ct, some body⟩).2
        = [StubEmit.dataEvent body])
    ∧ (body.get "type" = Json.str fulfilledType →
        (body.get "data").isNull = false →
        ((body.get "data").get "requestEventId").isNull = false →
        ((body.get "data").get "pfs").isNull = false →
        jsonLengthEqZero ((body.get "data").get "pfs") = false →
        (stubHandleRequest setting gen freshEventId b64enc b64dec hmac enc dec now host
          authResp eventsResp ⟨some "/2/events", authz, some ct, some body⟩).2
          = [StubEmit.dataEvent body])
    ∧ (body.get "type" = Json.str rejectedType →
        (body.get "data").isNull = false →
        ((body.get "data").get "requestEventId").isNull = false →
        ((body.get "data").get "error").isNull = false →
        (((body.get "data").get "error").get "code").isNull = false →
        (((body.get "data").get "error").get "message").isNull = false →
        errCodeRecognized ((body.get "data").get "error") = true →
        (stubHandleRequest setting gen freshEventId b64enc b64dec hmac enc dec now host
          authResp eventsResp ⟨some "/2/events", authz, some ct, some body⟩).2
          = [StubEmit.dataEvent body])
    ∧ (body.get "type" = Json.str createdType →
        (body.get "data").isNull = false →
        ((body.get "data").get "pf").isNull = false →
        authResp.status = 200 →
        (authResp.body.get "access_token").isNull = false →
        eventsResp.status = 200 →
        (stubHandleRequest setting gen freshEventId b64enc b64dec hmac enc dec now host
          authResp eventsResp ⟨some "/2/events", authz, some ct, some body⟩).2
          = [StubEmit.dataEvent body])
    ∧ (body.get "type" = Json.str createdType →
        (body.get "data").isNull = false →
        ((body.get "data").get "pf").isNull = false →
        authResp.status ≠ 200 →
        (stubHandleRequest setting gen freshEventId b64enc b64dec hmac enc dec now host
          authResp eventsResp ⟨some "/2/events", authz, some ct, some body⟩).2
          = ([] : List StubEmit)) := by
  have hroute : stubHandleRequest setting gen freshEventId b64enc b64dec hmac enc dec
      now host authResp eventsResp ⟨some "/2/events", authz, some ct, some body⟩
      = (match handleEvents setting gen freshEventId b64enc host (some ct) (some body)
            authResp eventsResp with
         | (acts, .ok b) => (acts, [StubEmit.dataEvent b])
         | (acts, .error msg) =>
            if hasRespond acts then (acts, [])
            else
              (acts ++ [StubAction.respond (badRequestResponse msg)],
               [StubEmit.errorEvent msg])) := by
    simp only [stubHandleRequest, if_true]
    rw [if_neg (by decide), if_neg (by decide), hauth]
  have hemits : ∀ res : List StubAction × Except String Json, res.2 = .ok body →
      (match res with
       | (acts, .ok b) => (acts, [StubEmit.dataEvent b])
       | (acts, .error msg) =>
          if hasRespond acts then (acts, [])
          else
            (acts ++ [StubAction.respond (badRequestResponse msg)],
             [StubEmit.errorEvent msg])).2 = [StubEmit.dataEvent body] := by
    rintro ⟨acts, res⟩ h
    cases res with
    | ok b =>
      have hb : b = body := by simpa using h
      subst hb
      rfl
    | error m => exact absurd h (by simp)
  refine ⟨?_, ?_, ?_, ?_, ?_⟩
  · intro htype
    have c1 : jsonEqStr (Json.str publishedType) publishedType = true := by decide
    have t1 : (Json.str publishedType).isNull = false := rfl
    have hsnd : (handleEvents setting gen freshEventId b64enc host (some ct) (some body)
        authResp eventsResp).2 = .ok body := by
      simp only [handleEvents, hobj, hct, htype, t1, c1, hid, hsrc,
        Bool.not_true, Bool.not_false, Bool.false_and, Bool.and_false, Bool.true_and,
        Bool.and_true, Bool.false_eq_true, if_false, if_true]
    rw [hroute]
    exact hemits _ hsnd
  · intro htype hd hre hpfs hlen0
    have c1 : jsonEqStr (Json.str fulfilledType) publishedType = false := by decide
    have c2 : jsonEqStr (Json.str fulfilledType) createdType = false := by decide
    have c3 : jsonEqStr (Json.str fulfilledType) fulfilledType = true := by decide
    have t1 : (Json.str fulfilledType).isNull = false := rfl
    have hsnd : (handleEvents setting gen freshEventId b64enc host (some ct) (some body)
        authResp eventsResp).2 = .ok body := by
      simp only [handleEvents, hobj, hct, htype, t1, c1, c2, c3, hid, hsrc, hd, hre,
        hpfs, hlen0,
        Bool.not_true, Bool.not_false, Bool.false_and, Bool.and_false, Bool.true_and,
        Bool.and_true, Bool.false_eq_true, if_false, if_true]
    rw [hroute]
    exact hemits _ hsnd
  · intro htype hd hre herr hcode hmsg hrec
    have c1 : jsonEqStr (Json.str rejectedType) publishedType = false := by decide
    have c2 : jsonEqStr (Json.str rejectedType) createdType = false := by decide
    have c3 : jsonEqStr (Json.str rejectedType) fulfilledType = false := by decide
    have c4 : jsonEqStr (Json.str rejectedType) rejectedType = true := by decide
    have t1 : (Json.str rejectedType).isNull = false := rfl
    have hsnd : (handleEvents setting gen freshEventId b64enc host (some ct) (some body)
        authResp eventsResp).2 = .ok body := by
      simp only [handleEvents, hobj, hct, htype, t1, c1, c2, c3, c4, hid, hsrc, hd, hre,
        herr, hcode, hmsg, hrec,
        Bool.not_true, Bool.not_false, Bool.false_and, Bool.and_false, Bool.true_and,
        Bool.and_true, Bool.false_eq_true, Bool.false_or, Bool.or_false, if_false, if_true]
    rw [hroute]
    exact hemits _ hsnd
  · intro htype hd hpf hast htokk hev2
    have c1 : jsonEqStr (Json.str createdType) publishedType = false := by decide
    have c2 : jsonEqStr (Json.str createdType) createdType = true := by decide
    have t1 : (Json.str createdType).isNull = false := rfl
    have hsnd : (handleEvents setting gen freshEventId b64enc host (some ct) (some body)
        authResp eventsResp).2 = .ok body := by
      simp only [handleEvents, handleRequestCreated, hobj, hct, htype, t1, c1, c2,
        hid, hsrc, hd, hpf, hast, hev2,
        Bool.not_true, Bool.not_false, Bool.false_and, Bool.and_false, Bool.true_and,
        Bool.and_true, Bool.false_eq_true, if_false, if_true]
      have hacc : (if (200 : Nat) = 200 then authResp.body.get "access_token"
          else Json.null) = authResp.body.get "access_token" := if_pos rfl
      simp only [hacc, htokk, Bool.false_eq_true, if_false]
      rw [if_neg (by simp)]
    rw [hroute]
    exact hemits _ hsnd
  · intro htype hd hpf hast2
    have c1 : jsonEqStr (Json.str createdType) publishedType = false := by decide
    have c2 : jsonEqStr (Json.str createdType) createdType = true := by decide
    have t1 : (Json.str createdType).isNull = false := rfl
    have hpair : handleEvents setting gen freshEventId b64enc host (some ct) (some body)
        authResp eventsResp
        = ([StubAction.respond successResponse,
            StubAction.call
              { method := "post",
                url := setting.destinationServer.authContextPath ++
                  setting.destinationServer.authPath,
                host := host, accept := some "application/json",
                contentType := "application/x-www-form-urlencoded",
                authorization := "Basic " ++ b64enc (setting.destinationServer.userName ++
                  ":" ++ setting.destinationServer.password),
                body := Json.obj [("grant_type", Json.str "client_credentials")] }],
           .error "Authentication error") := by
      simp only [handleEvents, handleRequestCreated, hobj, hct, htype, t1, c1, c2,
        hid, hsrc, hd, hpf,
        Bool.not_true, Bool.not_false, Bool.false_and, Bool.and_false, Bool.true_and,
        Bool.and_true, Bool.false_eq_true, if_false, if_true]
      rw [if_neg hast2]
      rfl
    rw [hroute, hpair]
    rfl

/-- Witness for C9 amended: with a verifying bearer token, a valid
Published event and a valid RequestCreated event with successful outbound
round trip each make the server emit exactly the data event carrying the
parsed envelope. -/
theorem events_data_emission_amended_witness :
    (stubHandleRequest settingW genW "f" (fun s => s) (fun s => s) hmacW encW decW 0 "h"
        ⟨200, Json.obj [("access_token", Json.str "tok")]⟩ ⟨200, Json.null⟩
        ⟨some "/2/events", some ("Bearer " ++ String.mk (generateJwtToken hmacW encW 0)),
         some "application/cloudevents+json",
         some (Json.obj [("type", Json.str publishedType), ("id", Json.str "e2"),
           ("source", Json.str "https://s")])⟩).2
      = [StubEmit.dataEvent (Json.obj [("type", Json.str publishedType),
          ("id", Json.str "e2"), ("source", Json.str "https://s")])]
    ∧ (stubHandleRequest settingW genW "f" (fun s => s) (fun s => s) hmacW encW decW 0 "h"
        ⟨200, Json.obj [("access_token", Json.str "tok")]⟩ ⟨200, Json.null⟩
        ⟨some "/2/events", some ("Bearer " ++ String.mk (generateJwtToken hmacW encW 0)),
         some "application/cloudevents+json", some bodyW⟩).2
      = [StubEmit.dataEvent bodyW] := by
  constructor
  · exact (events_data_emission_amended settingW genW "f" (fun s => s) (fun s => s)
      hmacW encW decW 0 "h" ⟨200, Json.obj [("access_token", Json.str "tok")]⟩
      ⟨200, Json.null⟩
      (some ("Bearer " ++ String.mk (generateJwtToken hmacW encW 0)))
      "application/cloudevents+json"
      (Json.obj [("type", Json.str publishedType), ("id", Json.str "e2"),
        ("source", Json.str "https://s")])
      (by rfl) (by decide) rfl rfl rfl).1 rfl
  · exact (events_data_emission_amended settingW genW "f" (fun s => s) (fun s => s)
      hmacW encW decW 0 "h" ⟨200, Json.obj [("access_token", Json.str "tok")]⟩
      ⟨200, Json.null⟩
      (some ("Bearer " ++ String.mk (generateJwtToken hmacW encW 0)))
      "application/cloudevents+json" bodyW
      (by rfl) (by decide) rfl rfl rfl).2.2.2.1 rfl rfl rfl rfl rfl rfl
